import Mathlib

/-!
Verification of the multi-agent lesson-generation pipeline
(`backend/app/services/agents` and `backend/app/services/multi_agent_service.py`)
against its natural-language specification.

The Python source is shallowly embedded: pure computations become Lean
functions over `ℚ`/`ℤ`/`String` (Python floats are modelled as exact
rationals, `round` as Python 3 banker's rounding, `int()` as truncation),
external-service interactions become explicit environment oracles, and
Python exceptions become `Except`/sum values.
-/

namespace LessonPipeline

/-- Python 3 `round` on a rational: round half to even (banker's rounding). -/
def pyRound (q : ℚ) : ℤ :=
  let f : ℤ := ⌊q⌋
  let r : ℚ := q - f
  if r < 1/2 then f
  else if 1/2 < r then f + 1
  else if f % 2 = 0 then f else f + 1

/-- Python `int()` on a rational: truncation toward zero. -/
def pyInt (q : ℚ) : ℤ :=
  if 0 ≤ q then ⌊q⌋ else -⌊-q⌋

/-! ## Plan stage: Gagne time distribution
Embeds `plan_agent.py` `_calculate_gagne_time_distribution` (lines 535-637)
and the request fields it reads (`models/lesson.py`, `LessonRequest`). -/

/-- `BloomLevel` enum from `models/lesson.py`. -/
inductive BloomLevel
  | remember | understand | apply | analyze | evaluate | create
deriving DecidableEq

/-- `GradeLevel` enum from `models/lesson.py`. -/
inductive GradeLvl
  | freshman | sophomore | junior | senior | masters | postgrad
deriving DecidableEq

/-- The fields of `LessonRequest` read by `_calculate_gagne_time_distribution`.
`duration_minutes` is validated by pydantic as `gt=0, le=480`; that bound is
carried as a hypothesis where a claim needs it, not baked into the type. -/
structure LessonReq where
  gradeLevel : GradeLvl
  durationMinutes : ℤ
  selectedBloomLevels : List BloomLevel

/-- Membership in `practical_levels = {"apply", "analyze", "evaluate", "create"}`. -/
def BloomLevel.isPractical : BloomLevel → Bool
  | .apply | .analyze | .evaluate | .create => true
  | _ => false

/-- Membership in `theoretical_levels = {"remember", "understand"}`. -/
def BloomLevel.isTheoretical : BloomLevel → Bool
  | .remember | .understand => true
  | _ => false

/-- `focus_ratio` computed at plan_agent.py lines 552-559: practical count over
practical + theoretical count, defaulting to 0.5 when both counts are zero
(unreachable for the six-valued enum, but kept from the source). -/
def focusValue (req : LessonReq) : ℚ :=
  let p : ℕ := (req.selectedBloomLevels.filter (·.isPractical)).length
  let t : ℕ := (req.selectedBloomLevels.filter (·.isTheoretical)).length
  if p + t = 0 then 1/2 else (p : ℚ) / ((p : ℚ) + (t : ℚ))

/-- `theoretical_distribution` table, plan_agent.py lines 562-572. -/
def theoreticalDistribution : ℕ → ℚ
  | 1 => 5/100 | 2 => 5/100 | 3 => 12/100 | 4 => 35/100 | 5 => 15/100
  | 6 => 15/100 | 7 => 8/100 | 8 => 5/100 | 9 => 6/100 | _ => 0

/-- `practical_distribution` table, plan_agent.py lines 574-584. -/
def practicalDistribution : ℕ → ℚ
  | 1 => 5/100 | 2 => 3/100 | 3 => 8/100 | 4 => 25/100 | 5 => 20/100
  | 6 => 25/100 | 7 => 10/100 | 8 => 4/100 | 9 => 6/100 | _ => 0

/-- `grade_adjustments` table, plan_agent.py lines 602-609; events without an
entry keep multiplier 1. -/
def gradeAdjustment : GradeLvl → ℕ → ℚ
  | .freshman, 2 => 12/10 | .freshman, 3 => 13/10 | .freshman, 5 => 12/10
  | .sophomore, 2 => 11/10 | .sophomore, 3 => 11/10 | .sophomore, 5 => 11/10
  | .senior, 6 => 11/10 | .senior, 8 => 11/10
  | .masters, 6 => 12/10 | .masters, 7 => 11/10 | .masters, 8 => 12/10
  | .postgrad, 4 => 9/10 | .postgrad, 6 => 13/10 | .postgrad, 8 => 13/10
  | _, _ => 1

/-- Interpolated and grade-adjusted weight of one event
(plan_agent.py lines 586-616). -/
def adjustedDistribution (req : LessonReq) (e : ℕ) : ℚ :=
  (theoreticalDistribution e * (1 - focusValue req)
    + practicalDistribution e * focusValue req) * gradeAdjustment req.gradeLevel e

/-- `total_weight = sum(base_distribution.values())` (line 619). -/
def totalWeight (req : LessonReq) : ℚ :=
  ((List.range 9).map (fun i => adjustedDistribution req (i + 1))).sum

/-- `normalized_distribution` (lines 620-623). -/
def normalizedDistribution (req : LessonReq) (e : ℕ) : ℚ :=
  adjustedDistribution req e / totalWeight req

/-- `total_allocated` after the loop over events 1-8 (lines 626-632): each of
the first eight events gets `max(1, round(normalized * duration))`. -/
def allocatedFirstEight (req : LessonReq) : ℤ :=
  ((List.range 8).map
    (fun i => max 1 (pyRound (normalizedDistribution req (i + 1) * req.durationMinutes)))).sum

/-- `time_distribution` returned by `_calculate_gagne_time_distribution`:
events 1-8 as in `allocatedFirstEight`, and event 9 gets
`max(1, duration - total_allocated)` (line 635). -/
def gagneTimeDistribution (req : LessonReq) (e : ℕ) : ℤ :=
  if e = 9 then max 1 (req.durationMinutes - allocatedFirstEight req)
  else max 1 (pyRound (normalizedDistribution req e * req.durationMinutes))

/-- Total minutes assigned to the nine events. -/
def totalAllocatedMinutes (req : LessonReq) : ℤ :=
  ((List.range 9).map (fun i => gagneTimeDistribution req (i + 1))).sum

/-- Concrete request used to refute claim C1: duration 1 minute (allowed by
the pydantic bound `gt=0`), one selected level, baseline grade. -/
def req0 : LessonReq := ⟨.junior, 1, [.remember]⟩

theorem req0_focus : focusValue req0 = 0 := by
  norm_num [focusValue, req0, List.filter, BloomLevel.isPractical, BloomLevel.isTheoretical]

theorem req0_grade : req0.gradeLevel = GradeLvl.junior := rfl

theorem req0_dur : req0.durationMinutes = 1 := rfl

theorem req0_adj : adjustedDistribution req0 1 = 5/100 ∧ adjustedDistribution req0 2 = 5/100
    ∧ adjustedDistribution req0 3 = 12/100 ∧ adjustedDistribution req0 4 = 35/100
    ∧ adjustedDistribution req0 5 = 15/100 ∧ adjustedDistribution req0 6 = 15/100
    ∧ adjustedDistribution req0 7 = 8/100 ∧ adjustedDistribution req0 8 = 5/100
    ∧ adjustedDistribution req0 9 = 6/100 := by
  refine ⟨?_, ?_, ?_, ?_, ?_, ?_, ?_, ?_, ?_⟩ <;>
    norm_num [adjustedDistribution, req0_focus, req0_grade, gradeAdjustment,
      theoreticalDistribution, practicalDistribution]

theorem req0_weight : totalWeight req0 = 106/100 := by
  rw [totalWeight]
  simp only [List.range_succ, List.map_append, List.sum_append, List.map_cons, List.sum_cons,
    List.map_nil, List.sum_nil, List.range_zero]
  rw [req0_adj.1, req0_adj.2.1, req0_adj.2.2.1, req0_adj.2.2.2.1, req0_adj.2.2.2.2.1,
    req0_adj.2.2.2.2.2.1, req0_adj.2.2.2.2.2.2.1, req0_adj.2.2.2.2.2.2.2.1,
    req0_adj.2.2.2.2.2.2.2.2]
  norm_num

theorem req0_alloc : allocatedFirstEight req0 = 8 := by
  rw [allocatedFirstEight]
  simp only [List.range_succ, List.map_append, List.sum_append, List.map_cons, List.sum_cons,
    List.map_nil, List.sum_nil, List.range_zero, normalizedDistribution, req0_weight, req0_dur]
  rw [req0_adj.1, req0_adj.2.1, req0_adj.2.2.1, req0_adj.2.2.2.1, req0_adj.2.2.2.2.1,
    req0_adj.2.2.2.2.2.1, req0_adj.2.2.2.2.2.2.1, req0_adj.2.2.2.2.2.2.2.1]
  norm_num [pyRound]

theorem req0_total : totalAllocatedMinutes req0 = 9 := by
  have h8 : ((List.range 8).map (fun i => gagneTimeDistribution req0 (i + 1))).sum
      = allocatedFirstEight req0 := by
    unfold allocatedFirstEight
    congr 1
  rw [totalAllocatedMinutes, show (9 : ℕ) = 8 + 1 from rfl, List.range_succ, List.map_append,
    List.sum_append, h8, req0_alloc]
  simp only [List.map_cons, List.map_nil, List.sum_cons, List.sum_nil]
  rw [show gagneTimeDistribution req0 9
        = max 1 (req0.durationMinutes - allocatedFirstEight req0) by simp [gagneTimeDistribution],
    req0_alloc, req0_dur]
  norm_num

/-- C1 — counterexample. The claim asserts that for every valid request
(duration 1..480, nonempty level set) event 9 receives exactly
`total - sum of the first eight` and the nine minutes sum to the total
duration. For duration 1 minute (grade junior, levels `[remember]`) each of
the first eight events is floored to 1 minute, event 9 receives
`max(1, 1 - 8) = 1`, and the minutes sum to 9, not 1. -/
theorem c1_counterexample :
    ¬ (∀ req : LessonReq, 1 ≤ req.durationMinutes → req.durationMinutes ≤ 480 →
        req.selectedBloomLevels ≠ [] →
        gagneTimeDistribution req 9 = req.durationMinutes - allocatedFirstEight req
          ∧ totalAllocatedMinutes req = req.durationMinutes) := by
  intro h
  have h0 := h req0 (by rw [req0_dur]) (by rw [req0_dur]; norm_num) (by simp [req0])
  have h1 : totalAllocatedMinutes req0 = 9 := req0_total
  rw [req0_dur] at h0
  omega

/-- C1 — amended. Event 9 is assigned `max(1, total - sum of first eight)`
(not the bare remainder), so the nine minutes always sum to
`max(total, allocatedFirstEight + 1)`: the sum equals the requested total
exactly when the first eight rounded-and-floored allocations leave at least
one minute of remainder, and exceeds it otherwise (as at duration 1). -/
theorem c1_time_allocation_amended (req : LessonReq) :
    gagneTimeDistribution req 9 = max 1 (req.durationMinutes - allocatedFirstEight req)
      ∧ totalAllocatedMinutes req = max req.durationMinutes (allocatedFirstEight req + 1) := by
  constructor
  · simp [gagneTimeDistribution]
  · have h8 : ((List.range 8).map (fun i => gagneTimeDistribution req (i + 1))).sum
        = allocatedFirstEight req := by
      unfold allocatedFirstEight
      congr 1
    rw [totalAllocatedMinutes, show (9 : ℕ) = 8 + 1 from rfl, List.range_succ, List.map_append,
      List.sum_append, h8]
    simp only [List.map_cons, List.map_nil, List.sum_cons, List.sum_nil]
    rw [show gagneTimeDistribution req 9
          = max 1 (req.durationMinutes - allocatedFirstEight req) by
        simp [gagneTimeDistribution]]
    omega

/-! ## Generative Call Gateway: `base_agent.py` `_call_openai` (lines 68-118) -/

/-- The external chat-completion service, one entry per attempt index: either
a raised exception (transport error, empty-reply `ValueError` from a lower
layer, ...) carried as a message, or the reply content string. -/
def GatewayOracle := ℕ → Except String String

/-- One iteration of the retry loop body (lines 93-108): issue the call; an
empty `content` raises `ValueError("Empty response from OpenAI")`, a nonempty
one is returned as `content.strip()`. -/
def attemptCall (oracle : GatewayOracle) (attempt : ℕ) : Except String String :=
  match oracle attempt with
  | .error e => .error e
  | .ok c => if c = "" then .error "Empty response from OpenAI" else .ok c.trim

/-- The retry loop of `_call_openai`: up to `maxRetries` attempts; when
attempt `k` fails and is not the last, sleep `2 ^ k` (exponential backoff,
line 118) and retry; failure of the last attempt re-raises. Returns the
result paired with the list of backoff sleeps performed, in order. Python's
`for attempt in range(max_retries)` with `max_retries = 0` would fall through
and return `None`; modelled as an error value. -/
def callOpenaiLoop (oracle : GatewayOracle) (maxRetries : ℕ) (attempt : ℕ)
    (sleeps : List ℕ) : Except String String × List ℕ :=
  if _h : attempt < maxRetries then
    match attemptCall oracle attempt with
    | .ok c => (.ok c, sleeps)
    | .error e =>
      if attempt = maxRetries - 1 then (.error e, sleeps)
      else callOpenaiLoop oracle maxRetries (attempt + 1) (sleeps ++ [2 ^ attempt])
  else (.error "no attempt was made", sleeps)
termination_by maxRetries - attempt
decreasing_by omega

/-- `_call_openai` with its default `max_retries = 3`. -/
def callOpenai (oracle : GatewayOracle) : Except String String × List ℕ :=
  callOpenaiLoop oracle 3 0 []

/-- Unrolled evaluation of the three-attempt loop. -/
theorem callOpenai_eval (oracle : GatewayOracle) :
    callOpenai oracle =
      match attemptCall oracle 0 with
      | .ok c => (.ok c, [])
      | .error _ =>
        match attemptCall oracle 1 with
        | .ok c => (.ok c, [1])
        | .error _ =>
          match attemptCall oracle 2 with
          | .ok c => (.ok c, [1, 2])
          | .error e => (.error e, [1, 2]) := by
  rw [callOpenai, callOpenaiLoop]
  cases attemptCall oracle 0 with
  | error e0 =>
    rw [callOpenaiLoop]
    cases attemptCall oracle 1 with
    | error e1 =>
      rw [callOpenaiLoop]
      cases attemptCall oracle 2 with
      | error e2 => simp
      | ok c => simp
    | ok c => simp
  | ok c => simp

/-- C7 — confirmed. The Gateway call makes at most 3 attempts (the outcome
depends only on oracle entries 0-2); between consecutive attempts it backs
off exponentially (sleeps `2^0` then `2^1`); a call whose first two attempts
fail and whose third yields a nonempty reply returns that reply (stripped) as
a success; and the call signals an error exactly when all three attempts
fail. -/
theorem c7_gateway_retry (oracle : GatewayOracle) :
    (∀ oracle' : GatewayOracle, (∀ k, k < 3 → oracle k = oracle' k) →
      callOpenai oracle = callOpenai oracle')
    ∧ (∀ e₀ e₁ c, oracle 0 = .error e₀ → oracle 1 = .error e₁ → oracle 2 = .ok c → c ≠ "" →
        callOpenai oracle = (.ok c.trim, [1, 2]))
    ∧ ((∃ e, (callOpenai oracle).1 = .error e) ↔
        ∀ k, k < 3 → ∃ e, attemptCall oracle k = .error e) := by
  refine ⟨?_, ?_, ?_⟩
  · intro oracle' hagree
    have ha : ∀ k, k < 3 → attemptCall oracle k = attemptCall oracle' k := by
      intro k hk
      unfold attemptCall
      rw [hagree k hk]
    rw [callOpenai_eval, callOpenai_eval, ha 0 (by omega), ha 1 (by omega), ha 2 (by omega)]
  · intro e₀ e₁ c h0 h1 h2 hc
    rw [callOpenai_eval]
    unfold attemptCall
    rw [h0, h1, h2]
    simp [hc]
  · rw [callOpenai_eval]
    cases h0 : attemptCall oracle 0 with
    | ok c =>
      simp only []
      constructor
      · rintro ⟨e, he⟩
        exact absurd he (by simp)
      · intro hall
        obtain ⟨e, he⟩ := hall 0 (by omega)
        rw [h0] at he
        exact absurd he (by simp)
    | error e0 =>
      cases h1 : attemptCall oracle 1 with
      | ok c =>
        simp only []
        constructor
        · rintro ⟨e, he⟩
          exact absurd he (by simp)
        · intro hall
          obtain ⟨e, he⟩ := hall 1 (by omega)
          rw [h1] at he
          exact absurd he (by simp)
      | error e1 =>
        cases h2 : attemptCall oracle 2 with
        | ok c =>
          simp only []
          constructor
          · rintro ⟨e, he⟩
            exact absurd he (by simp)
          · intro hall
            obtain ⟨e, he⟩ := hall 2 (by omega)
            rw [h2] at he
            exact absurd he (by simp)
        | error e2 =>
          simp only []
          constructor
          · intro _
            intro k hk
            interval_cases k
            · exact ⟨e0, h0⟩
            · exact ⟨e1, h1⟩
            · exact ⟨e2, h2⟩
          · intro _
            exact ⟨e2, rfl⟩

/-- Oracle whose first two attempts raise and whose third replies. -/
def oracleW : GatewayOracle := fun k =>
  if k = 0 then .error "connection reset"
  else if k = 1 then .error "rate limited"
  else .ok "generated reply"

/-- C7 — witness: at `oracleW`, the retry theorem yields success with the
stripped third reply after backoffs 1 and 2. -/
theorem c7_gateway_retry_witness :
    callOpenai oracleW = (.ok ("generated reply".trim), [1, 2]) :=
  (c7_gateway_retry oracleW).2.1 "connection reset" "rate limited" "generated reply"
    rfl rfl rfl (by decide)

/-! ## Content stage: target slide count
Embeds `content_agent.py` `_calculate_slide_count` (lines 311-347) with the
`base_slides` column of the per-event template table
(`_initialize_event_templates`, lines 130-196). -/

/-- `base_slides` per Gagne event; an unknown event number falls back to the
event-4 template (line 319). -/
def baseSlides : ℕ → ℕ
  | 1 => 2 | 2 => 1 | 3 => 2 | 4 => 4 | 5 => 3 | 6 => 3 | 7 => 2 | 8 => 2 | 9 => 2
  | _ => 4

/-- `grade_factors` table (lines 330-337); `.get(grade_level, 1.0)`. -/
def gradeFactor (gradeLevel : String) : ℚ :=
  if gradeLevel = "freshman" then 12/10
  else if gradeLevel = "sophomore" then 11/10
  else if gradeLevel = "junior" then 1
  else if gradeLevel = "senior" then 9/10
  else if gradeLevel = "masters" then 8/10
  else if gradeLevel = "postgrad" then 7/10
  else 1

/-- `_calculate_slide_count`: `lesson_info.get("grade_level", "junior")` is
modelled by the `Option String` argument. `duration_factor` uses Python floor
division `// 15`, `activity_factor` is `min(2, len(activities) // 2)`, the
product is truncated by `int(...)`, and the result is clamped to
`[max(1, base // 2), min(8, base * 3)]`. -/
def calculateSlideCount (eventNumber : ℕ) (durationMinutes : ℤ) (activities : List String)
    (gl : Option String) : ℤ :=
  let base : ℕ := baseSlides eventNumber
  let durationFactor : ℤ := max 1 (Int.fdiv durationMinutes 15)
  let activityFactor : ℕ := min 2 (activities.length / 2)
  let g : ℚ := gradeFactor (gl.getD "junior")
  let calculated : ℤ := pyInt ((base : ℚ) * (durationFactor : ℚ) * (activityFactor : ℚ) * g)
  let minSlides : ℤ := max 1 ((base / 2 : ℕ) : ℤ)
  let maxSlides : ℤ := min 8 ((base : ℤ) * 3)
  max minSlides (min calculated maxSlides)

/-- The slide-count formula exactly as claim C5 states it (refinement
comparison definition, following the claim's words, not the source):
`clamp(round(base × durationFactor × activityFactor × audienceFactor),
min = base/2, max = base×3)` with `durationFactor = max(1, minutes/15)`. -/
def claimedSlideCount (eventNumber : ℕ) (durationMinutes : ℤ) (activities : List String)
    (gl : Option String) : ℚ :=
  let base : ℕ := baseSlides eventNumber
  let durationFactor : ℚ := max 1 ((durationMinutes : ℚ) / 15)
  let activityFactor : ℕ := min 2 (activities.length / 2)
  let g : ℚ := gradeFactor (gl.getD "junior")
  let rounded : ℤ := pyRound ((base : ℚ) * durationFactor * (activityFactor : ℚ) * g)
  max ((base : ℚ) / 2) (min (rounded : ℚ) ((base : ℚ) * 3))

/-- Four activities, so `activity_factor = 2` on both sides. -/
def acts4 : List String :=
  ["Structured lecture", "Provide multiple examples", "Use visual aids", "Group exercise"]

theorem gradeFactor_junior : gradeFactor "junior" = 1 := rfl

/-- C5 — counterexample. For event 4 (base 4), 60 minutes, four activities,
grade junior: the code computes `int(4·4·2·1) = 32` and clamps to
`min(8, 12) = 8`, while the claimed formula clamps 32 to `max = 4×3 = 12`;
the claim omits the hard cap of 8 slides per event. -/
theorem c5_counterexample :
    calculateSlideCount 4 60 acts4 (some "junior") = 8
      ∧ claimedSlideCount 4 60 acts4 (some "junior") = 12
      ∧ ((calculateSlideCount 4 60 acts4 (some "junior") : ℚ)
          ≠ claimedSlideCount 4 60 acts4 (some "junior")) := by
  have h8 : calculateSlideCount 4 60 acts4 (some "junior") = 8 := by
    norm_num [calculateSlideCount, baseSlides, gradeFactor_junior, acts4, pyInt,
      show Int.fdiv 60 15 = 4 from rfl]
  have h12 : claimedSlideCount 4 60 acts4 (some "junior") = 12 := by
    norm_num [claimedSlideCount, baseSlides, gradeFactor_junior, acts4, pyRound]
  refine ⟨h8, h12, ?_⟩
  rw [h8, h12]
  norm_num

/-- C5 — amended. The target unit count is
`clamp(int(base × durF × actF × audienceF), min = max(1, base div 2),
max = min(8, base × 3))` where `durF = max(1, minutes div 15)` (integer
floor division), `actF = min(2, len(activities) div 2)` (zero when fewer
than two activities), the product is truncated (not rounded), and the result
always lies in `[1, 8]`. -/
theorem c5_slide_count_amended (e : ℕ) (d : ℤ) (acts : List String) (gl : Option String) :
    calculateSlideCount e d acts gl
      = max (max 1 ((baseSlides e / 2 : ℕ) : ℤ))
          (min (pyInt ((baseSlides e : ℚ) * ((max 1 (Int.fdiv d 15) : ℤ) : ℚ)
              * ((min 2 (acts.length / 2) : ℕ) : ℚ) * gradeFactor (gl.getD "junior")))
            (min 8 ((baseSlides e : ℤ) * 3)))
      ∧ 1 ≤ calculateSlideCount e d acts gl ∧ calculateSlideCount e d acts gl ≤ 8 := by
  have hbase : baseSlides e ≤ 4 := by
    unfold baseSlides
    split <;> omega
  refine ⟨rfl, ?_, ?_⟩ <;>
  · simp only [calculateSlideCount]
    generalize pyInt _ = c
    have hb2 : ((baseSlides e / 2 : ℕ) : ℤ) ≤ 2 := by omega
    omega

/-! ## Content stage: per-grouping fan-out
Embeds `content_agent.py` `generate_slides_for_all_events` (lines 198-242)
and `_generate_slides_for_event` (lines 244-309), including the
dict-versus-object duck typing: `isinstance(event, dict)` branches exist at
the field-extraction sites, while the prompt construction (lines 382, 391,
394), `_create_fallback_slides` (line 565) and the event-level exception
handler's log statement (line 307) unconditionally use attribute access,
which raises `AttributeError` on a dict. -/

/-- Whether a Python value is a plain dict or an object with attributes. -/
inductive PyShape
  | dict | obj
deriving DecidableEq

/-- Python exceptions distinguished by the embedding. -/
inductive PyExc
  | attributeError
deriving DecidableEq

/-- A Gagne event value as received by the content agent, with the shape it
arrived in. (The coordinator passes `event.dict()` dictionaries, line 490 of
`coordinator_agent.py`; the type annotations promise objects.) -/
structure GEventVal where
  shape : PyShape
  number : ℕ
  name : String
  description : String
  activities : List String
  durationMinutes : ℤ
  materials : List String
  assessment : Option String
deriving DecidableEq

/-- Attribute access `event.field`: succeeds on an object, raises
`AttributeError` on a dict. -/
def GEventVal.attr {α : Type} (e : GEventVal) (f : GEventVal → α) : Except PyExc α :=
  match e.shape with
  | .dict => .error .attributeError
  | .obj => .ok (f e)

/-- A visual element of a slide (`VisualElement` in `models/gagne_slides.py`),
with the fields the validators read (`type`, `alt_text`, `description`). -/
structure VElem where
  vtype : String
  alt_text : String
  description : String
deriving DecidableEq

/-- A slide (`SlideContent` in `models/gagne_slides.py`), restricted to the
fields the content fallback writes and the validators read. -/
structure DSlide where
  title : String
  main_content : String
  visual_elements : List VElem
  activities : List String
  audio_script : String
  udl_guidelines : List String
  accessibility_features : List String
deriving DecidableEq

/-- `_create_basic_slide` (content_agent.py lines 570-595). -/
def basicSlide (num : ℕ) (eventName : String) (activities : List String) : DSlide :=
  { title := eventName ++ " - Slide " ++ toString num
  , main_content := "# " ++ eventName ++ "\n\n## Key Activities\n\n"
      ++ String.intercalate "\n" (activities.map (fun a => "- " ++ a))
  , visual_elements := []
  , activities := activities
  , audio_script := "Audio narration for " ++ eventName
  , udl_guidelines := ["multiple_representation", "engagement"]
  , accessibility_features := ["alt_text", "keyboard_navigation"] }

/-- `_create_fallback_slides` (lines 555-568): builds `slide_count` basic
slides — but reads `event.event_name` and `event.activities` as attributes,
so it raises on a dict event. -/
def createFallbackSlides (e : GEventVal) (slideCount : ℕ) : Except PyExc (List DSlide) := do
  let nm ← e.attr (·.name)
  let acts ← e.attr (·.activities)
  .ok ((List.range slideCount).map (fun i => basicSlide (i + 1) nm acts))

/-- Outcome of one OpenAI slide-generation attempt for one event, as seen at
content_agent.py lines 462-508: an exception outside the
`(json.JSONDecodeError, KeyError, ValueError)` class, an exception inside it,
or a parsed slide array (`_create_slide_object` substitutes a basic slide on
a per-slide conversion error and never raises, lines 514-553). -/
inductive SlideGenAttempt
  | exc (msg : String)
  | parseErr (msg : String)
  | parsed (slides : List DSlide)

/-- Oracle for the concurrent generation: event position × attempt index. -/
structure ContentGenEnv where
  attempt : ℕ → ℕ → SlideGenAttempt

/-- The 3-attempt loop of `_create_ai_generated_slides` (lines 462-508): a
parse-class failure retries (attempts 0 and 1) and falls back on the final
attempt; any other exception escapes to the outer handler (line 510) which
falls back immediately; a parsed array of the wrong length retries on
attempts 0 and 1 but is accepted on the final attempt. -/
def aiAttemptLoop (env : ContentGenEnv) (pos : ℕ) (e : GEventVal) (slideCount : ℕ) :
    ℕ → Except PyExc (List DSlide)
  | k =>
    match env.attempt pos k with
    | .exc _ => createFallbackSlides e slideCount
    | .parseErr _ =>
      if h : k < 2 then aiAttemptLoop env pos e slideCount (k + 1)
      else createFallbackSlides e slideCount
    | .parsed slides =>
      if h : slides.length ≠ slideCount ∧ k < 2 then aiAttemptLoop env pos e slideCount (k + 1)
      else .ok slides
termination_by k => 3 - k
decreasing_by all_goals omega

/-- `_create_ai_generated_slides` (lines 349-512): the prompt construction
reads `event.duration_minutes`, `event.materials_needed` and
`event.assessment_strategy` as attributes (lines 382, 391, 394); on a dict
event this raises, the outer handler (line 510) then calls
`_create_fallback_slides`, which raises again. -/
def createAiGeneratedSlides (env : ContentGenEnv) (pos : ℕ) (e : GEventVal)
    (slideCount : ℕ) : Except PyExc (List DSlide) :=
  match e.attr (·.durationMinutes), e.attr (·.materials), e.attr (·.assessment) with
  | .ok _, .ok _, .ok _ => aiAttemptLoop env pos e slideCount 0
  | _, _, _ => createFallbackSlides e slideCount

/-- The per-event output (`GagneEventSlides`), restricted to the fields the
pipeline reads downstream. `estimated_duration` is omitted (the slide model
carries no duration and no claim concerns it). -/
structure CEventSlides where
  number : ℕ
  name : String
  description : String
  totalSlides : ℕ
  slides : List DSlide
  materialsSummary : List String
  assessmentNotes : Option String
deriving DecidableEq

/-- `_generate_slides_for_event` (lines 244-309). Field extraction
(lines 254-269) branches on the shape and is total; the `except` handler
(lines 306-309) first logs `event.event_number` — attribute access, which
re-raises on a dict — and otherwise builds `_create_fallback_event_slides`
(lines 597-617) for this event alone. -/
def generateSlidesForEvent (env : ContentGenEnv) (grade : Option String) (pos : ℕ)
    (e : GEventVal) : Except PyExc CEventSlides :=
  let slideCount : ℕ := (calculateSlideCount e.number e.durationMinutes e.activities grade).toNat
  match createAiGeneratedSlides env pos e slideCount with
  | .ok slides =>
    .ok { number := e.number, name := e.name, description := e.description
        , totalSlides := slides.length, slides := slides
        , materialsSummary := e.materials, assessmentNotes := e.assessment }
  | .error _ =>
    match e.attr (·.number) with
    | .error e2 => .error e2
    | .ok _ =>
      match createFallbackSlides e 2 with
      | .error e2 => .error e2
      | .ok slides =>
        .ok { number := e.number, name := e.name, description := e.description
            , totalSlides := slides.length, slides := slides
            , materialsSummary := e.materials, assessmentNotes := e.assessment }

/-- The `asyncio.gather` fan-out of `generate_slides_for_all_events`
(lines 209-218): one task per event, in list order; all results are joined
in order, and a raised exception propagates out of the join. -/
def generateAllAux (env : ContentGenEnv) (grade : Option String) :
    ℕ → List GEventVal → Except PyExc (List CEventSlides)
  | _, [] => .ok []
  | pos, e :: rest => do
    let r ← generateSlidesForEvent env grade pos e
    let rs ← generateAllAux env grade (pos + 1) rest
    .ok (r :: rs)

/-- `generate_slides_for_all_events` (lines 198-242). -/
def generateSlidesForAllEvents (env : ContentGenEnv) (grade : Option String)
    (events : List GEventVal) : Except PyExc (List CEventSlides) :=
  generateAllAux env grade 0 events

/-- Event 4, 20 minutes, one activity — object-shaped. -/
def evObj : GEventVal :=
  ⟨.obj, 4, "Present the Content", "Deliver new information systematically",
    ["Structured lecture"], 20, ["Lecture slides"], none⟩

/-- Event 5, 15 minutes, four activities — object-shaped. -/
def evObj2 : GEventVal :=
  ⟨.obj, 5, "Provide Learning Guidance", "Guide the learning process",
    acts4, 15, ["Examples"], some "Guided practice observation"⟩

/-- The same two events as the coordinator actually passes them: dicts. -/
def evDict : GEventVal := { evObj with shape := .dict }

def evDict2 : GEventVal := { evObj2 with shape := .dict }

/-- Generation oracle: every attempt for the first event fails with a parse
error (generation for that grouping fails after retries); the second event
parses to a single AI slide on every attempt. -/
def envA : ContentGenEnv :=
  ⟨fun pos _ =>
    if pos = 0 then .parseErr "Expected array but got object"
    else .parsed [⟨"Guidance - AI Slide", "## Coaching steps", [], [], "", [], []⟩]⟩

theorem evObj_count : (calculateSlideCount 4 20 ["Structured lecture"] (some "junior")).toNat
    = 2 := by
  norm_num [calculateSlideCount, baseSlides, gradeFactor_junior, pyInt,
    show Int.fdiv 20 15 = 1 from rfl]
  rfl

theorem evObj2_count : (calculateSlideCount 5 15 acts4 (some "junior")).toNat = 6 := by
  norm_num [calculateSlideCount, baseSlides, gradeFactor_junior, acts4, pyInt,
    show Int.fdiv 15 15 = 1 from rfl]
  rfl

/-- C6 — behaviour at the failing input. With object-shaped events the
fan-out is per-grouping and identity-preserving: the first grouping (whose
generation fails after all three attempts) alone receives fallback slides,
the second keeps its AI-generated slide (accepted on the final attempt
despite the count mismatch), and event numbers stay attached to their own
groupings. With the same events passed as dicts — which is how the
coordinator invokes the stage — the failing grouping's exception handler
itself raises `AttributeError`, the whole gather collapses, and no grouping
receives a per-grouping fallback. -/
theorem c6_fanout_at_failing_input :
    generateSlidesForAllEvents envA (some "junior") [evObj, evObj2]
      = .ok
        [ { number := 4, name := "Present the Content"
          , description := "Deliver new information systematically"
          , totalSlides := 2
          , slides := [basicSlide 1 "Present the Content" ["Structured lecture"],
              basicSlide 2 "Present the Content" ["Structured lecture"]]
          , materialsSummary := ["Lecture slides"], assessmentNotes := none }
        , { number := 5, name := "Provide Learning Guidance"
          , description := "Guide the learning process"
          , totalSlides := 1
          , slides := [⟨"Guidance - AI Slide", "## Coaching steps", [], [], "", [], []⟩]
          , materialsSummary := ["Examples"]
          , assessmentNotes := some "Guided practice observation" } ]
    ∧ generateSlidesForAllEvents envA (some "junior") [evDict, evDict2]
      = .error .attributeError := by
  constructor
  · show generateAllAux envA (some "junior") 0 [evObj, evObj2] = _
    rw [generateAllAux]
    have h1 : generateSlidesForEvent envA (some "junior") 0 evObj
        = .ok { number := 4, name := "Present the Content"
              , description := "Deliver new information systematically"
              , totalSlides := 2
              , slides := [basicSlide 1 "Present the Content" ["Structured lecture"],
                  basicSlide 2 "Present the Content" ["Structured lecture"]]
              , materialsSummary := ["Lecture slides"], assessmentNotes := none } := by
      simp only [generateSlidesForEvent, evObj]
      rw [evObj_count]
      simp [createAiGeneratedSlides, aiAttemptLoop, GEventVal.attr, envA, createFallbackSlides,
        List.range_succ]
      rfl
    have h2 : generateSlidesForEvent envA (some "junior") 1 evObj2
        = .ok { number := 5, name := "Provide Learning Guidance"
              , description := "Guide the learning process"
              , totalSlides := 1
              , slides := [⟨"Guidance - AI Slide", "## Coaching steps", [], [], "", [], []⟩]
              , materialsSummary := ["Examples"]
              , assessmentNotes := some "Guided practice observation" } := by
      simp only [generateSlidesForEvent, evObj2]
      rw [evObj2_count]
      simp [createAiGeneratedSlides, aiAttemptLoop, GEventVal.attr, envA, createFallbackSlides]
    rw [h1]
    show generateAllAux envA (some "junior") 1 [evObj2] >>= _ = _
    rw [generateAllAux, h2]
    rfl
  · show generateAllAux envA (some "junior") 0 [evDict, evDict2] = _
    rw [generateAllAux]
    have h1 : generateSlidesForEvent envA (some "junior") 0 evDict
        = .error .attributeError := by
      simp [generateSlidesForEvent, createAiGeneratedSlides, createFallbackSlides,
        GEventVal.attr, evDict, evObj]
      rfl
    rw [h1]
    rfl

/-! ## String helpers for the validator heuristics
Embedding of the Python string operations used by `design_agent.py` and
`udl_agent.py`: substring membership (`sub in s`), non-overlapping
occurrence counting (`s.count(sub)`), and lowercasing. -/

/-- Python `sub in s` on character lists. -/
def listHasSub (l sub : List Char) : Bool :=
  match l with
  | [] => sub.isEmpty
  | _ :: rest => sub.isPrefixOf l || listHasSub rest sub

/-- Python `s.count(sub)` on character lists: non-overlapping occurrences.
(`s.count("")` returns `len(s) + 1` in Python; the sources never do that.) -/
def listCountSub (l sub : List Char) : ℕ :=
  match sub with
  | [] => l.length + 1
  | s₀ :: ss =>
    match l with
    | [] => 0
    | c :: rest =>
      if (s₀ :: ss).isPrefixOf (c :: rest) then 1 + listCountSub (rest.drop ss.length) (s₀ :: ss)
      else listCountSub rest (s₀ :: ss)
termination_by l.length
decreasing_by
  all_goals simp [List.length_drop]
  all_goals omega

/-- Python `sub in s`. -/
def strIncludes (s sub : String) : Bool := listHasSub s.data sub.data

/-- Python `s.count(sub)`. -/
def strCount (s sub : String) : ℕ := listCountSub s.data sub.data

/-- Python `s.lower()` (ASCII-adequate for the fixed keyword lists). -/
def pyLower (s : String) : String := s.toLower

/-- Maximum of a list of naturals, 0 for the empty list (Python `max` is
only applied to nonempty lists in the source). -/
def natMax (l : List ℕ) : ℕ := l.foldl max 0

/-- Minimum of a nonempty list of naturals, 0 for the empty list. -/
def natMin : List ℕ → ℕ
  | [] => 0
  | x :: xs => xs.foldl min x

/-- `total / checks if checks > 0 else 0.0`. -/
def avgOrZero (l : List ℚ) : ℚ := if l.length = 0 then 0 else l.sum / l.length

/-- The `if score > 0: total += score; checks += 1` accumulation pattern:
keep only the positive entries. -/
def positiveParts (l : List ℚ) : List ℚ := l.filter (fun x => 0 < x)

/-! ## Design validator: C.R.A.P. heuristics
Embeds `design_agent.py` `_validate_crap_principles` (lines 141-234) and the
heuristic analyzers it averages (lines 236-745). -/

/-- `_analyze_text_contrast` (lines 275-314). -/
def analyzeTextContrast (s : DSlide) : ℚ :=
  let c := s.main_content
  let b1 : ℚ := if strIncludes c "**" || strIncludes c "<b>" || strIncludes c "<strong>"
    then 3/10 else 0
  let b2 : ℚ := if strIncludes c "#" || s.title ≠ "" then 3/10 else 0
  let b3 : ℚ := if strIncludes c "•" || strIncludes c "-" || strIncludes c "*" then 2/10 else 0
  let b4 : ℚ := if ["color", "contrast", "dark", "light", "bright", "bold"].any
      (fun k => strIncludes (pyLower c) k) then 2/10 else 0
  (b1 + b2 + b3 + b4) / 4

/-- `_analyze_heading_hierarchy` (lines 316-341). -/
def analyzeHeadingHierarchy (s : DSlide) : ℚ :=
  let c := s.main_content
  let b1 : ℚ := if s.title.trim ≠ "" then 4/10 else 0
  let hc : ℕ := (["#", "##", "###", "####", "**", "## "].filter
    (fun i => strIncludes c i)).length
  let b2 : ℚ := if 0 < hc then min (4/10) ((hc : ℚ) * (1/10)) else 0
  let lc : ℕ := (["•", "-", "*", "1.", "2.", "3."].filter (fun i => strIncludes c i)).length
  let b3 : ℚ := if 0 < lc then min (2/10) ((lc : ℚ) * (5/100)) else 0
  (b1 + b2 + b3) / 3

/-- `_analyze_color_usage` (lines 343-377). -/
def analyzeColorUsage (s : DSlide) : ℚ :=
  let c := s.main_content
  let cm : ℕ := (["color", "contrast", "dark", "light", "bright", "highlight"].filter
    (fun k => strIncludes (pyLower c) k)).length
  let b1 : ℚ := if 0 < cm then min (3/10) ((cm : ℚ) * (1/10)) else 0
  let b2 : ℚ := if s.visual_elements ≠ []
      ∧ s.visual_elements.any (fun el => el.alt_text ≠ "" && el.alt_text.length > 10)
    then 2/10 else 0
  let b3 : ℚ := if ["accessible", "readable", "visible", "clear"].any
      (fun k => strIncludes (pyLower c) k) then 2/10 else 0
  (b1 + b2 + b3) / 3

/-- `_analyze_text_readability` (lines 379-419). -/
def analyzeTextReadability (s : DSlide) : ℚ :=
  let c := s.main_content
  let n := c.length
  let b1 : ℚ := if 50 ≤ n ∧ n ≤ 500 then 3/10 else if 50 < n then 2/10 else 0
  let b2 : ℚ := if 0 < strCount c "\n\n" + strCount c "\n" then 2/10 else 0
  let b3 : ℚ := if 0 < strCount c "." + strCount c "!" + strCount c "?" then 2/10 else 0
  let b4 : ℚ := if 0 < strCount c "**" + strCount c "*" + strCount c "_" + strCount c "`"
    then 3/10 else 0
  (b1 + b2 + b3 + b4) / 4

/-- One slide's contribution to `_validate_contrast` (lines 236-273): the
mean of the positive analyzer scores, or nothing when all are zero. -/
def contrastSlideScore (s : DSlide) : Option ℚ :=
  let parts := positiveParts [analyzeTextContrast s, analyzeHeadingHierarchy s,
    analyzeColorUsage s, analyzeTextReadability s]
  if parts.length = 0 then none else some (parts.sum / parts.length)

/-- `_validate_contrast`. -/
def validateContrast (slides : List DSlide) : ℚ :=
  avgOrZero (slides.filterMap contrastSlideScore)

/-- `_analyze_title_consistency` (lines 461-513). -/
def analyzeTitleConsistency (slides : List DSlide) : ℚ :=
  let validTitles := (slides.map (·.title)).filter (fun t => t.trim ≠ "")
  if validTitles.length < 2 then 1/2
  else
    let n := validTitles.length
    let lens := validTitles.map (·.length)
    let b1 : ℚ := if natMax lens - natMin lens ≤ 20 then 3/10 else 0
    let capCount := (validTitles.filter (fun t => t.front.isUpper)).length
    let colonCount := (validTitles.filter (fun t => strIncludes t ":")).length
    let periodCount := (validTitles.filter (fun t => t.endsWith ".")).length
    let b2 : ℚ := if 0 < capCount + colonCount + periodCount
      then ((max capCount (max colonCount periodCount) : ℕ) : ℚ) / n * (4/10) else 0
    let structCount := (validTitles.filter (fun t =>
      ["#", "##", "###", "**", "*"].any (fun i => strIncludes t i))).length
    let b3 : ℚ := if 0 < structCount then ((structCount : ℚ) / n) * (3/10) else 0
    (b1 + b2 + b3) / 3

/-- Per-slide structure statistics of `_analyze_content_structure_consistency`
(lines 520-530); `italic` is computed by the source but read by no check. -/
structure ContentStats where
  paragraphs : ℕ
  headings : ℕ
  lists : ℕ
  bold : ℕ
  italic : ℤ
  clength : ℕ

def contentStats (s : DSlide) : ContentStats :=
  let c := s.main_content
  { paragraphs := strCount c "\n\n" + 1
  , headings := strCount c "#"
  , lists := strCount c "•" + strCount c "-" + strCount c "*"
  , bold := strCount c "**"
  , italic := (strCount c "*" : ℤ) - (strCount c "**" : ℤ)
  , clength := c.length }

/-- `_analyze_content_structure_consistency` (lines 515-573);
`len(set(xs)) <= 2` becomes `xs.dedup.length ≤ 2`. -/
def analyzeContentStructureConsistency (slides : List DSlide) : ℚ :=
  let sts := slides.map contentStats
  if sts.length < 2 then 1/2
  else
    let b1 : ℚ := if ((sts.map (·.paragraphs)).dedup).length ≤ 2 then 3/10 else 0
    let b2 : ℚ := if ((sts.map (·.headings)).dedup).length ≤ 2 then 2/10 else 0
    let b3 : ℚ := if ((sts.map (·.lists)).dedup).length ≤ 2 then 2/10 else 0
    let b4 : ℚ := if ((sts.map (·.bold)).dedup).length ≤ 2 then 2/10 else 0
    let b5 : ℚ := if natMax (sts.map (·.clength)) - natMin (sts.map (·.clength)) ≤ 200
      then 1/10 else 0
    (b1 + b2 + b3 + b4 + b5) / 5

/-- The six per-slide formatting predicates of
`_analyze_formatting_consistency` (lines 580-590); the quote characters are
written by code point (0x22 `"` and 0x27 `'`). -/
def usesBold (s : DSlide) : Bool := strIncludes s.main_content "**"

def usesItalic (s : DSlide) : Bool :=
  strIncludes s.main_content "*" && !(strIncludes s.main_content "**")

def usesLists (s : DSlide) : Bool :=
  ["•", "-", "*", "1.", "2."].any (fun i => strIncludes s.main_content i)

def usesHeadings (s : DSlide) : Bool := strIncludes s.main_content "#"

def usesCode (s : DSlide) : Bool := strIncludes s.main_content "`"

def usesQuotes (s : DSlide) : Bool :=
  strIncludes s.main_content "\x22" || strIncludes s.main_content "\x27"

/-- Bonus for one usage share (lines 599-609). -/
def formattingBonus (r : ℚ) : ℚ :=
  if 8/10 ≤ r ∨ r ≤ 2/10 then 2/10
  else if 6/10 ≤ r ∨ r ≤ 4/10 then 1/10
  else 0

/-- `_analyze_formatting_consistency` (lines 575-615). -/
def analyzeFormattingConsistency (slides : List DSlide) : ℚ :=
  if slides.length < 2 then 1/2
  else
    ([usesBold, usesItalic, usesLists, usesHeadings, usesCode, usesQuotes].map
      (fun p => formattingBonus (((slides.filter p).length : ℚ) / slides.length))).sum / 6

/-- The largest multiplicity of any element (`Counter(xs).most_common(1)`),
0 for the empty list. -/
def maxMultiplicity (l : List String) : ℕ := (l.map (fun x => l.count x)).foldl max 0

/-- `_analyze_visual_consistency` (lines 617-667). -/
def analyzeVisualConsistency (slides : List DSlide) : ℚ :=
  let typesPerSlide := slides.map (fun s => s.visual_elements.map (·.vtype))
  if typesPerSlide.length < 2 then 1/2
  else
    let b1 : ℚ := if ((typesPerSlide.map (·.length)).dedup).length ≤ 2 then 3/10 else 0
    let allTypes := typesPerSlide.flatten
    let b2 : ℚ := if allTypes ≠ []
      then ((maxMultiplicity allTypes : ℚ) / (allTypes.length : ℚ)) * (4/10) else 0
    let altCount := (slides.filter
      (fun s => s.visual_elements.any (fun el => el.alt_text ≠ ""))).length
    let b3 : ℚ := ((altCount : ℚ) / (slides.length : ℚ)) * (3/10)
    (b1 + b2 + b3) / 3

/-- `_validate_repetition` (lines 421-459): a single slide scores 1.0
outright; otherwise the mean of the positive consistency analyses. -/
def validateRepetition (slides : List DSlide) : ℚ :=
  if slides.length < 2 then 1
  else
    avgOrZero (positiveParts [analyzeTitleConsistency slides,
      analyzeContentStructureConsistency slides, analyzeFormattingConsistency slides,
      analyzeVisualConsistency slides])

/-- The granted bonuses for one slide in `_validate_alignment`
(lines 669-707): each `checks_passed` increment sits inside the bonus's
`if`. -/
def alignmentParts (s : DSlide) : List ℚ :=
  (if s.title ≠ "" then [(4 : ℚ)/10] else [])
    ++ (if s.main_content ≠ "" then
          (if 1 < (s.main_content.splitOn "\n").length then [(3 : ℚ)/10] else [])
            ++ (if 0 < strCount s.main_content "\n\n" then [(3 : ℚ)/10] else [])
        else [])

/-- `_validate_alignment`. -/
def validateAlignment (slides : List DSlide) : ℚ :=
  avgOrZero (slides.filterMap (fun s =>
    let parts := alignmentParts s
    if parts.length = 0 then none else some (parts.sum / parts.length)))

/-- The granted bonuses for one slide in `_validate_proximity`
(lines 709-745). -/
def proximityParts (s : DSlide) : List ℚ :=
  let c := s.main_content
  if c ≠ "" then
    (if 1 < (c.splitOn "\n\n").length then [(4 : ℚ)/10] else [])
      ++ (if ["•", "-", "*", "1.", "2.", "3."].any (fun m => strIncludes c m)
          then [(3 : ℚ)/10] else [])
      ++ (if (c.length : ℚ) * (1/10) < (strCount c " " : ℚ) then [(3 : ℚ)/10] else [])
  else []

/-- `_validate_proximity`. -/
def validateProximity (slides : List DSlide) : ℚ :=
  avgOrZero (slides.filterMap (fun s =>
    let parts := proximityParts s
    if parts.length = 0 then none else some (parts.sum / parts.length)))

/-- The scores of a `DesignComplianceReport` (the per-principle status
objects and recommendation lists mirror these scores and are read by no
claim). -/
structure DesignReportD where
  contrast_score : ℚ
  repetition_score : ℚ
  alignment_score : ℚ
  proximity_score : ℚ
  overall_score : ℚ
deriving DecidableEq

/-- `_validate_crap_principles` (lines 141-234): the four heuristic scores
and their mean. -/
def validateCrapPrinciples (slides : List DSlide) : DesignReportD :=
  let c := validateContrast slides
  let r := validateRepetition slides
  let a := validateAlignment slides
  let p := validateProximity slides
  { contrast_score := c, repetition_score := r, alignment_score := a, proximity_score := p
  , overall_score := (c + r + a + p) / 4 }

/-! ## UDL validator: compliance scoring
Embeds `udl_agent.py` `_calculate_udl_compliance` (lines 197-233),
`_calculate_principle_score` (lines 235-251), the AI pass-through of
`_analyze_udl_principle_with_ai` (line 310: `analysis_result.get("overall_score", 0.5)`,
no clamping), and the heuristic fallback `_calculate_basic_principle_score`
(lines 336-350). -/

/-- `_calculate_basic_principle_score`: implemented-guideline mentions over a
fixed total of 4, capped at 1. -/
def calculateBasicPrincipleScore (slides : List DSlide) (principle : String) : ℚ :=
  let implemented : ℕ := (slides.map (fun s =>
    (s.udl_guidelines.filter (fun g => strIncludes (pyLower g) principle)).length)).sum
  min 1 ((implemented : ℚ) / 4)

/-- Per-principle outcome of the AI analysis call: `none` when the call or
JSON parse raised (→ heuristic fallback), `some none` when the parsed object
lacks `overall_score` (→ default 0.5), `some (some v)` for a parsed score
`v`, passed through unclamped. -/
structure UdlAiEnv where
  analysis : String → Option (Option ℚ)

/-- `_calculate_principle_score`: unknown principles score 0.5; otherwise the
AI result, its 0.5 default, or the heuristic fallback. -/
def calculatePrincipleScore (env : UdlAiEnv) (slides : List DSlide) (principle : String) : ℚ :=
  if principle = "representation" ∨ principle = "action_expression" ∨ principle = "engagement"
  then
    match env.analysis principle with
    | none => calculateBasicPrincipleScore slides principle
    | some none => 1/2
    | some (some v) => v
  else 1/2

/-- The scores of a `UDLComplianceReport` (`models/udl_content.py` places no
range constraint on them; the report's guideline and recommendation lists
are read by no claim). -/
structure UdlReportD where
  representation_score : ℚ
  action_expression_score : ℚ
  engagement_score : ℚ
  overall_compliance : ℚ
deriving DecidableEq

/-- `_calculate_udl_compliance` (lines 197-221): three principle scores and
their mean. -/
def calculateUdlCompliance (env : UdlAiEnv) (slides : List DSlide) : UdlReportD :=
  let r := calculatePrincipleScore env slides "representation"
  let a := calculatePrincipleScore env slides "action_expression"
  let e := calculatePrincipleScore env slides "engagement"
  { representation_score := r, action_expression_score := a, engagement_score := e
  , overall_compliance := (r + a + e) / 3 }

/-! ### Bounds lemmas for the heuristics -/

theorem avgOrZero_mem (l : List ℚ) (h : ∀ x ∈ l, 0 ≤ x ∧ x ≤ 1) :
    0 ≤ avgOrZero l ∧ avgOrZero l ≤ 1 := by
  unfold avgOrZero
  rcases l with _ | ⟨a, as⟩
  · simp
  · rw [if_neg (by simp)]
    have hlen : (0 : ℚ) < ((a :: as).length : ℚ) := by
      exact_mod_cast Nat.succ_pos as.length
    constructor
    · exact div_nonneg (List.sum_nonneg fun x hx => (h x hx).1) hlen.le
    · rw [div_le_one hlen]
      calc (a :: as).sum ≤ (a :: as).length • (1 : ℚ) :=
            List.sum_le_card_nsmul _ 1 fun x hx => (h x hx).2
        _ = ((a :: as).length : ℚ) := by simp

theorem positiveParts_mem (l : List ℚ) (h : ∀ x ∈ l, x ≤ 1) :
    ∀ x ∈ positiveParts l, 0 ≤ x ∧ x ≤ 1 := by
  intro x hx
  rw [positiveParts, List.mem_filter] at hx
  obtain ⟨hmem, hpos⟩ := hx
  refine ⟨le_of_lt (by exact_mod_cast of_decide_eq_true hpos), h x hmem⟩

theorem partsAvg_mem (parts : List ℚ) (hparts : ¬ parts.length = 0)
    (h : ∀ x ∈ parts, 0 ≤ x ∧ x ≤ 1) :
    0 ≤ parts.sum / parts.length ∧ parts.sum / parts.length ≤ 1 := by
  have := avgOrZero_mem parts h
  rw [avgOrZero, if_neg hparts] at this
  exact this

theorem ratio_scaled_mem (c n : ℕ) (r : ℚ) (hc : c ≤ n) (hn : 0 < n) (hr : 0 ≤ r) :
    0 ≤ (c : ℚ) / (n : ℚ) * r ∧ (c : ℚ) / (n : ℚ) * r ≤ r := by
  have hnq : (0 : ℚ) < (n : ℚ) := by exact_mod_cast hn
  constructor
  · positivity
  · have h1 : (c : ℚ) / (n : ℚ) ≤ 1 := by
      rw [div_le_one hnq]
      exact_mod_cast hc
    calc (c : ℚ) / (n : ℚ) * r ≤ 1 * r := mul_le_mul_of_nonneg_right h1 hr
      _ = r := one_mul r

theorem foldl_max_le (l : List ℕ) (n : ℕ) :
    ∀ m, (∀ a ∈ l, a ≤ n) → m ≤ n → l.foldl max m ≤ n := by
  induction l with
  | nil => intro m _ hm; simpa
  | cons a as ih =>
    intro m h hm
    simp only [List.foldl_cons]
    exact ih _ (fun b hb => h b (List.mem_cons_of_mem a hb))
      (max_le hm (h a (List.mem_cons_self a as)))

theorem maxMultiplicity_le (l : List String) : maxMultiplicity l ≤ l.length := by
  unfold maxMultiplicity
  apply foldl_max_le _ _ _ _ (Nat.zero_le _)
  intro a ha
  rw [List.mem_map] at ha
  obtain ⟨x, _, hx⟩ := ha
  rw [← hx]
  exact List.count_le_length x l

theorem min_unit {cap x : ℚ} (hcap0 : 0 ≤ cap) (hcap1 : cap ≤ 1) (hx : 0 ≤ x) :
    0 ≤ min cap x ∧ min cap x ≤ 1 :=
  ⟨le_min hcap0 hx, le_trans (min_le_left _ _) hcap1⟩

theorem ite_term_unit (c : Prop) [Decidable c] (v : ℚ) (hv : 0 ≤ v ∧ v ≤ 1) :
    0 ≤ (if c then v else 0) ∧ (if c then v else 0) ≤ 1 := by
  split_ifs
  · exact hv
  · norm_num

theorem mean3_mem {a b c : ℚ} (ha : 0 ≤ a ∧ a ≤ 1) (hb : 0 ≤ b ∧ b ≤ 1)
    (hc : 0 ≤ c ∧ c ≤ 1) : 0 ≤ (a + b + c) / 3 ∧ (a + b + c) / 3 ≤ 1 := by
  obtain ⟨a1, a2⟩ := ha; obtain ⟨b1, b2⟩ := hb; obtain ⟨c1, c2⟩ := hc
  constructor <;> linarith

theorem mean4_mem {a b c d : ℚ} (ha : 0 ≤ a ∧ a ≤ 1) (hb : 0 ≤ b ∧ b ≤ 1)
    (hc : 0 ≤ c ∧ c ≤ 1) (hd : 0 ≤ d ∧ d ≤ 1) :
    0 ≤ (a + b + c + d) / 4 ∧ (a + b + c + d) / 4 ≤ 1 := by
  obtain ⟨a1, a2⟩ := ha; obtain ⟨b1, b2⟩ := hb; obtain ⟨c1, c2⟩ := hc; obtain ⟨d1, d2⟩ := hd
  constructor <;> linarith

theorem mean5_mem {a b c d e : ℚ} (ha : 0 ≤ a ∧ a ≤ 1) (hb : 0 ≤ b ∧ b ≤ 1)
    (hc : 0 ≤ c ∧ c ≤ 1) (hd : 0 ≤ d ∧ d ≤ 1) (he : 0 ≤ e ∧ e ≤ 1) :
    0 ≤ (a + b + c + d + e) / 5 ∧ (a + b + c + d + e) / 5 ≤ 1 := by
  obtain ⟨a1, a2⟩ := ha; obtain ⟨b1, b2⟩ := hb; obtain ⟨c1, c2⟩ := hc
  obtain ⟨d1, d2⟩ := hd; obtain ⟨e1, e2⟩ := he
  constructor <;> linarith

theorem analyzeTextContrast_mem (s : DSlide) :
    0 ≤ analyzeTextContrast s ∧ analyzeTextContrast s ≤ 1 := by
  unfold analyzeTextContrast
  dsimp only
  exact mean4_mem (by split_ifs <;> norm_num) (by split_ifs <;> norm_num)
    (by split_ifs <;> norm_num) (by split_ifs <;> norm_num)

theorem analyzeHeadingHierarchy_mem (s : DSlide) :
    0 ≤ analyzeHeadingHierarchy s ∧ analyzeHeadingHierarchy s ≤ 1 := by
  unfold analyzeHeadingHierarchy
  dsimp only
  exact mean3_mem (by split_ifs <;> norm_num)
    (ite_term_unit _ _ (min_unit (by norm_num) (by norm_num) (by positivity)))
    (ite_term_unit _ _ (min_unit (by norm_num) (by norm_num) (by positivity)))

theorem analyzeColorUsage_mem (s : DSlide) :
    0 ≤ analyzeColorUsage s ∧ analyzeColorUsage s ≤ 1 := by
  unfold analyzeColorUsage
  dsimp only
  exact mean3_mem
    (ite_term_unit _ _ (min_unit (by norm_num) (by norm_num) (by positivity)))
    (by split_ifs <;> norm_num) (by split_ifs <;> norm_num)

theorem analyzeTextReadability_mem (s : DSlide) :
    0 ≤ analyzeTextReadability s ∧ analyzeTextReadability s ≤ 1 := by
  unfold analyzeTextReadability
  dsimp only
  exact mean4_mem (by split_ifs <;> norm_num) (by split_ifs <;> norm_num)
    (by split_ifs <;> norm_num) (by split_ifs <;> norm_num)

theorem analyzeTitleConsistency_mem (slides : List DSlide) :
    0 ≤ analyzeTitleConsistency slides ∧ analyzeTitleConsistency slides ≤ 1 := by
  unfold analyzeTitleConsistency
  dsimp only
  by_cases hlen : ((slides.map (·.title)).filter (fun t => t.trim ≠ "")).length < 2
  · rw [if_pos hlen]
    norm_num
  · rw [if_neg hlen]
    have hn : 0 < ((slides.map (·.title)).filter (fun t => t.trim ≠ "")).length := by omega
    refine mean3_mem (by split_ifs <;> norm_num) ?_ ?_
    · apply ite_term_unit
      have hmax3 : max ((((slides.map (·.title)).filter (fun t => t.trim ≠ "")).filter
            (fun t => t.front.isUpper)).length)
          (max ((((slides.map (·.title)).filter (fun t => t.trim ≠ "")).filter
            (fun t => strIncludes t ":")).length)
            ((((slides.map (·.title)).filter (fun t => t.trim ≠ "")).filter
              (fun t => t.endsWith ".")).length))
          ≤ ((slides.map (·.title)).filter (fun t => t.trim ≠ "")).length :=
        max_le (List.length_filter_le _ _)
          (max_le (List.length_filter_le _ _) (List.length_filter_le _ _))
      have h := ratio_scaled_mem _ _ ((4 : ℚ)/10) hmax3 hn (by norm_num)
      exact ⟨h.1, le_trans h.2 (by norm_num)⟩
    · apply ite_term_unit
      have h := ratio_scaled_mem
        ((((slides.map (·.title)).filter (fun t => t.trim ≠ "")).filter (fun t =>
          ["#", "##", "###", "**", "*"].any (fun i => strIncludes t i))).length)
        (((slides.map (·.title)).filter (fun t => t.trim ≠ "")).length)
        ((3 : ℚ)/10) (List.length_filter_le _ _) hn (by norm_num)
      exact ⟨h.1, le_trans h.2 (by norm_num)⟩

theorem analyzeContentStructureConsistency_mem (slides : List DSlide) :
    0 ≤ analyzeContentStructureConsistency slides
      ∧ analyzeContentStructureConsistency slides ≤ 1 := by
  unfold analyzeContentStructureConsistency
  dsimp only
  by_cases hlen : (slides.map contentStats).length < 2
  · rw [if_pos hlen]
    norm_num
  · rw [if_neg hlen]
    exact mean5_mem (by split_ifs <;> norm_num) (by split_ifs <;> norm_num)
      (by split_ifs <;> norm_num) (by split_ifs <;> norm_num) (by split_ifs <;> norm_num)

theorem formattingBonus_mem (r : ℚ) :
    0 ≤ formattingBonus r ∧ formattingBonus r ≤ 2/10 := by
  unfold formattingBonus
  split_ifs <;> norm_num

theorem analyzeFormattingConsistency_mem (slides : List DSlide) :
    0 ≤ analyzeFormattingConsistency slides ∧ analyzeFormattingConsistency slides ≤ 1 := by
  unfold analyzeFormattingConsistency
  split_ifs with h
  · norm_num
  · simp only [List.map_cons, List.map_nil, List.sum_cons, List.sum_nil, add_zero]
    have h1 := formattingBonus_mem (((slides.filter usesBold).length : ℚ) / slides.length)
    have h2 := formattingBonus_mem (((slides.filter usesItalic).length : ℚ) / slides.length)
    have h3 := formattingBonus_mem (((slides.filter usesLists).length : ℚ) / slides.length)
    have h4 := formattingBonus_mem (((slides.filter usesHeadings).length : ℚ) / slides.length)
    have h5 := formattingBonus_mem (((slides.filter usesCode).length : ℚ) / slides.length)
    have h6 := formattingBonus_mem (((slides.filter usesQuotes).length : ℚ) / slides.length)
    obtain ⟨a1, a2⟩ := h1; obtain ⟨b1, b2⟩ := h2; obtain ⟨c1, c2⟩ := h3
    obtain ⟨d1, d2⟩ := h4; obtain ⟨e1, e2⟩ := h5; obtain ⟨f1, f2⟩ := h6
    constructor <;> linarith

theorem analyzeVisualConsistency_mem (slides : List DSlide) :
    0 ≤ analyzeVisualConsistency slides ∧ analyzeVisualConsistency slides ≤ 1 := by
  unfold analyzeVisualConsistency
  dsimp only
  by_cases hlen : (slides.map (fun s => s.visual_elements.map (·.vtype))).length < 2
  · rw [if_pos hlen]
    norm_num
  · rw [if_neg hlen]
    have hslides : 0 < slides.length := by
      rw [List.length_map] at hlen
      omega
    refine mean3_mem (by split_ifs <;> norm_num) ?_ ?_
    · apply ite_term_unit
      by_cases hjoin : (slides.map (fun s => s.visual_elements.map (·.vtype))).flatten = []
      · rw [hjoin]
        simp [maxMultiplicity]
      · have hpos : 0 < (slides.map (fun s => s.visual_elements.map (·.vtype))).flatten.length :=
          List.length_pos.mpr hjoin
        have h := ratio_scaled_mem _ _ ((4 : ℚ)/10) (maxMultiplicity_le _) hpos (by norm_num)
        exact ⟨h.1, le_trans h.2 (by norm_num)⟩
    · have h := ratio_scaled_mem
        ((slides.filter (fun s => s.visual_elements.any (fun el => el.alt_text ≠ ""))).length)
        slides.length ((3 : ℚ)/10) (List.length_filter_le _ _) hslides (by norm_num)
      exact ⟨h.1, le_trans h.2 (by norm_num)⟩

theorem validateContrast_mem (slides : List DSlide) :
    0 ≤ validateContrast slides ∧ validateContrast slides ≤ 1 := by
  unfold validateContrast
  apply avgOrZero_mem
  intro x hx
  rw [List.mem_filterMap] at hx
  obtain ⟨s, _, hs⟩ := hx
  unfold contrastSlideScore at hs
  dsimp only at hs
  have hmem : ∀ y ∈ positiveParts [analyzeTextContrast s, analyzeHeadingHierarchy s,
      analyzeColorUsage s, analyzeTextReadability s], 0 ≤ y ∧ y ≤ 1 := by
    apply positiveParts_mem
    intro y hy
    simp only [List.mem_cons, List.not_mem_nil, or_false] at hy
    rcases hy with h | h | h | h <;> rw [h]
    · exact (analyzeTextContrast_mem s).2
    · exact (analyzeHeadingHierarchy_mem s).2
    · exact (analyzeColorUsage_mem s).2
    · exact (analyzeTextReadability_mem s).2
  split_ifs at hs with hparts
  have hres := partsAvg_mem _ hparts hmem
  simp only [Option.some.injEq] at hs
  rw [← hs]
  exact hres

theorem validateRepetition_mem (slides : List DSlide) :
    0 ≤ validateRepetition slides ∧ validateRepetition slides ≤ 1 := by
  unfold validateRepetition
  split_ifs with h
  · norm_num
  · apply avgOrZero_mem
    apply positiveParts_mem
    intro y hy
    simp only [List.mem_cons, List.not_mem_nil, or_false] at hy
    rcases hy with h | h | h | h <;> rw [h]
    · exact (analyzeTitleConsistency_mem slides).2
    · exact (analyzeContentStructureConsistency_mem slides).2
    · exact (analyzeFormattingConsistency_mem slides).2
    · exact (analyzeVisualConsistency_mem slides).2

theorem mem_ite_nil {α : Type} {c : Prop} [Decidable c] {l : List α} {x : α}
    (h : x ∈ (if c then l else [])) : x ∈ l := by
  split_ifs at h
  · exact h
  · exact absurd h (List.not_mem_nil x)

theorem alignmentParts_mem (s : DSlide) :
    ∀ x ∈ alignmentParts s, 0 ≤ x ∧ x ≤ 1 := by
  intro x hx
  unfold alignmentParts at hx
  rcases List.mem_append.mp hx with h | h
  · have hm := mem_ite_nil h
    simp only [List.mem_singleton] at hm
    rw [hm]
    norm_num
  · rcases List.mem_append.mp (mem_ite_nil h) with h2 | h2 <;>
    · have hm := mem_ite_nil h2
      simp only [List.mem_singleton] at hm
      rw [hm]
      norm_num

theorem proximityParts_mem (s : DSlide) :
    ∀ x ∈ proximityParts s, 0 ≤ x ∧ x ≤ 1 := by
  intro x hx
  unfold proximityParts at hx
  dsimp only at hx
  rcases List.mem_append.mp (mem_ite_nil hx) with h | h
  · rcases List.mem_append.mp h with h2 | h2 <;>
    · have hm := mem_ite_nil h2
      simp only [List.mem_singleton] at hm
      rw [hm]
      norm_num
  · have hm := mem_ite_nil h
    simp only [List.mem_singleton] at hm
    rw [hm]
    norm_num

theorem validateAlignment_mem (slides : List DSlide) :
    0 ≤ validateAlignment slides ∧ validateAlignment slides ≤ 1 := by
  unfold validateAlignment
  apply avgOrZero_mem
  intro x hx
  rw [List.mem_filterMap] at hx
  obtain ⟨s, _, hs⟩ := hx
  dsimp only at hs
  split_ifs at hs with hparts
  have hres := partsAvg_mem _ hparts (alignmentParts_mem s)
  simp only [Option.some.injEq] at hs
  rw [← hs]
  exact hres

theorem validateProximity_mem (slides : List DSlide) :
    0 ≤ validateProximity slides ∧ validateProximity slides ≤ 1 := by
  unfold validateProximity
  apply avgOrZero_mem
  intro x hx
  rw [List.mem_filterMap] at hx
  obtain ⟨s, _, hs⟩ := hx
  dsimp only at hs
  split_ifs at hs with hparts
  have hres := partsAvg_mem _ hparts (proximityParts_mem s)
  simp only [Option.some.injEq] at hs
  rw [← hs]
  exact hres

theorem calculateBasicPrincipleScore_mem (slides : List DSlide) (p : String) :
    0 ≤ calculateBasicPrincipleScore slides p ∧ calculateBasicPrincipleScore slides p ≤ 1 := by
  unfold calculateBasicPrincipleScore
  dsimp only
  constructor
  · apply le_min (by norm_num)
    positivity
  · exact min_le_left _ _

/-! ## Accessibility validator: WCAG heuristics
Embeds `accessibility_agent.py` `_validate_wcag_compliance` (lines 132-221)
and the four principle validators it averages (lines 223-731). The
`accessibility_level` parameter feeds only the report's `wcag_level` field
and none of the scoring, so it is omitted here. -/

/-- `_analyze_alt_text_compliance` (lines 267-302): 0.8 when the slide has
no visual elements, otherwise the per-element sum divided by the element
count and capped at 1. -/
def analyzeAltTextCompliance (s : DSlide) : ℚ :=
  if s.visual_elements = [] then 8/10
  else
    let elemScore := fun (el : VElem) =>
      (if el.alt_text ≠ "" ∧ 5 < el.alt_text.trim.length then (4 : ℚ)/10
        else if el.alt_text ≠ "" ∧ 0 < el.alt_text.trim.length then 2/10 else 0)
      + (if el.description ≠ "" ∧ 10 < el.description.trim.length then (3 : ℚ)/10
        else if el.description ≠ "" ∧ 0 < el.description.trim.length then 1/10 else 0)
      + (if strIncludes (pyLower el.alt_text) "decorative"
            || strIncludes (pyLower el.description) "decorative" then (1 : ℚ)/10 else 0)
    if s.visual_elements.length ≠ 0
    then min 1 ((s.visual_elements.map elemScore).sum / s.visual_elements.length)
    else 0

/-- `_analyze_text_alternatives` (lines 304-339). -/
def analyzeTextAlternatives (s : DSlide) : ℚ :=
  let c := s.main_content
  let t1 : ℚ := if c ≠ "" ∧ 20 < c.trim.length then 4/10 else 0
  let t2 : ℚ := if s.audio_script ≠ "" ∧ 10 < s.audio_script.trim.length then 3/10 else 0
  let t3 : ℚ := if s.title ≠ "" ∧ 0 < s.title.trim.length then 2/10 else 0
  let t4 : ℚ := if ["•", "-", "*", "1.", "2.", "3."].any (fun i => strIncludes c i)
    then 1/10 else 0
  (t1 + t2 + t3 + t4) / 4

/-- `_analyze_color_contrast` (lines 341-379). -/
def analyzeColorContrast (s : DSlide) : ℚ :=
  let c := s.main_content
  let colorMentions := (["color", "contrast", "dark", "light", "bright", "highlight"].filter
    (fun k => strIncludes (pyLower c) k)).length
  let c1 : ℚ := if 0 < colorMentions then min (3/10) ((colorMentions : ℚ) * (1/10)) else 0
  let c2 : ℚ := if ["accessible", "readable", "visible", "clear", "high contrast"].any
    (fun k => strIncludes (pyLower c) k) then 2/10 else 0
  let fmtCount := (["**", "bold", "strong", "##", "###"].map (fun i => strCount c i)).sum
  let c3 : ℚ := if 0 < fmtCount then min (3/10) ((fmtCount : ℚ) * (5/100)) else 0
  let c4 : ℚ := if ["#", "##", "###", "####"].any (fun i => strIncludes c i) then 2/10 else 0
  (c1 + c2 + c3 + c4) / 4

/-- `_analyze_text_scaling` (lines 381-422). -/
def analyzeTextScaling (s : DSlide) : ℚ :=
  let c := s.main_content
  let s1 : ℚ := if c ≠ "" ∧ 10 < c.trim.length then 3/10 else 0
  let s2 : ℚ := if 0 < strCount c "#" + strCount c "##" + strCount c "###" then 2/10 else 0
  let s3 : ℚ := if ["•", "-", "*", "1.", "2.", "3."].any (fun i => strIncludes c i)
    then 2/10 else 0
  let s4 : ℚ := if 0 < strCount c "\n\n" + strCount c "\n" then 2/10 else 0
  let s5 : ℚ := if ["responsive", "scalable", "flexible", "adaptive"].any
    (fun k => strIncludes (pyLower c) k) then 1/10 else 0
  (s1 + s2 + s3 + s4 + s5) / 5

/-- Per-slide contribution to `_validate_perceivable` (lines 229-259): the
average of the positive check scores, `none` when every check is 0. -/
def perceivableSlideScore (s : DSlide) : Option ℚ :=
  let parts := positiveParts [analyzeAltTextCompliance s, analyzeTextAlternatives s,
    analyzeColorContrast s, analyzeTextScaling s]
  if parts.length = 0 then none else some (parts.sum / parts.length)

/-- `_validate_perceivable` (lines 223-265). -/
def validatePerceivable (slides : List DSlide) : ℚ :=
  avgOrZero (slides.filterMap perceivableSlideScore)

/-- `_analyze_keyboard_accessibility` (lines 468-511). -/
def analyzeKeyboardAccessibility (s : DSlide) : ℚ :=
  let c := pyLower s.main_content
  let interactiveCount := (["click", "select", "choose", "button", "link", "menu", "tab"].filter
    (fun k => strIncludes c k)).length
  let k1 : ℚ := if 0 < interactiveCount then 3/10 else 0
  let k2 : ℚ := if ["keyboard", "tab", "enter", "space", "arrow", "focus"].any
    (fun k => strIncludes c k) then 2/10 else 0
  let k3 : ℚ := if ["aria", "label", "role", "alt", "title"].any (fun k => strIncludes c k)
    then 2/10 else 0
  let k4 : ℚ := if ["skip", "jump", "navigation", "menu", "main"].any (fun k => strIncludes c k)
    then 2/10 else 0
  let k5 : ℚ := if ["focus", "highlight", "active", "selected"].any (fun k => strIncludes c k)
    then 1/10 else 0
  (k1 + k2 + k3 + k4 + k5) / 5

/-- `_analyze_seizure_safety` (lines 513-558): the third check examines the
first visual element whose type is video/animation/gif (the loop breaks
there), awarding 0.1 iff its description mentions pause. -/
def analyzeSeizureSafety (s : DSlide) : ℚ :=
  let c := pyLower s.main_content
  let seizureMentions := (["flash", "blink", "flicker", "strobe", "rapid", "fast"].filter
    (fun k => strIncludes c k)).length
  let z1 : ℚ := if seizureMentions = 0 then 4/10
    else if strIncludes c "warning" || strIncludes c "caution" then 3/10 else 0
  let motionMentions := (["motion", "animation", "video", "gif", "moving"].filter
    (fun k => strIncludes c k)).length
  let z2 : ℚ := if motionMentions = 0 then 3/10
    else if strIncludes c "pause" || strIncludes c "stop" then 2/10 else 0
  let z3 : ℚ := (s.visual_elements.find? (fun el =>
      ["video", "animation", "gif"].contains (pyLower el.vtype))).elim 0
    (fun el => if strIncludes (pyLower el.description) "pause" then 1/10 else 0)
  let z4 : ℚ := if ["video", "animation", "gif", "flash"].any (fun k => strIncludes c k)
    then 0 else 3/10
  (z1 + z2 + z3 + z4) / 4

/-- `_analyze_navigation_accessibility` (lines 560-602). -/
def analyzeNavigationAccessibility (s : DSlide) : ℚ :=
  let c := s.main_content
  let n1 : ℚ := if s.title ≠ "" ∧ 0 < s.title.trim.length then 3/10 else 0
  let n2 : ℚ := if 0 < strCount c "#" + strCount c "##" + strCount c "###" then 2/10 else 0
  let n3 : ℚ := if ["•", "-", "*", "1.", "2.", "3."].any (fun i => strIncludes c i)
    then 2/10 else 0
  let n4 : ℚ := if ["navigation", "menu", "skip", "jump", "next", "previous", "back"].any
    (fun k => strIncludes (pyLower c) k) then 2/10 else 0
  let n5 : ℚ := if ["focus", "highlight", "active", "selected", "current"].any
    (fun k => strIncludes (pyLower c) k) then 1/10 else 0
  (n1 + n2 + n3 + n4 + n5) / 5

/-- `_analyze_input_accessibility` (lines 604-646). -/
def analyzeInputAccessibility (s : DSlide) : ℚ :=
  let c := pyLower s.main_content
  let i1 : ℚ := if ["input", "type", "method", "alternative", "choice"].any
    (fun k => strIncludes c k) then 2/10 else 0
  let i2 : ℚ := if ["time", "duration", "pause", "wait", "speed", "rate"].any
    (fun k => strIncludes c k) then 2/10 else 0
  let i3 : ℚ := if ["error", "mistake", "correct", "fix", "help", "guidance"].any
    (fun k => strIncludes c k) then 2/10 else 0
  let i4 : ℚ := if ["control", "adjust", "customize", "setting", "option"].any
    (fun k => strIncludes c k) then 2/10 else 0
  let i5 : ℚ := if ["instruction", "step", "guide", "how", "process"].any
    (fun k => strIncludes c k) then 2/10 else 0
  (i1 + i2 + i3 + i4 + i5) / 5

/-- Per-slide contribution to `_validate_operable` (lines 430-460). -/
def operableSlideScore (s : DSlide) : Option ℚ :=
  let parts := positiveParts [analyzeKeyboardAccessibility s, analyzeSeizureSafety s,
    analyzeNavigationAccessibility s, analyzeInputAccessibility s]
  if parts.length = 0 then none else some (parts.sum / parts.length)

/-- `_validate_operable` (lines 424-466). -/
def validateOperable (slides : List DSlide) : ℚ :=
  avgOrZero (slides.filterMap operableSlideScore)

/-- Python `s.split()` word count: whitespace-separated tokens. -/
def wordCount (s : String) : ℕ :=
  ((s.split (fun c => c.isWhitespace)).filter (fun w => w ≠ "")).length

/-- The checks one slide passes in `_validate_understandable` (lines 654-684),
as weight contributions (`checks_passed` counts only passed checks there). -/
def understandableParts (s : DSlide) : List ℚ :=
  (if s.main_content ≠ "" then
      (if 0 < ((s.main_content.splitOn ".").filter
          (fun t => 3 < wordCount t ∧ wordCount t < 30)).length then [(4 : ℚ)/10] else [])
      ++ (if 1 < (s.main_content.splitOn "\n").length then [(3 : ℚ)/10] else [])
    else [])
  ++ (if s.title ≠ "" then
      (if 5 < s.title.length ∧ s.title.length < 100 then [(3 : ℚ)/10] else []) else [])

/-- Per-slide contribution to `_validate_understandable`. -/
def understandableSlideScore (s : DSlide) : Option ℚ :=
  let parts := understandableParts s
  if parts.length = 0 then none else some (parts.sum / parts.length)

/-- `_validate_understandable` (lines 648-690). -/
def validateUnderstandable (slides : List DSlide) : ℚ :=
  avgOrZero (slides.filterMap understandableSlideScore)

/-- The checks one slide passes in `_validate_robust` (lines 698-725). -/
def robustParts (s : DSlide) : List ℚ :=
  (if s.title ≠ "" ∧ s.main_content ≠ "" then [(5 : ℚ)/10] else [])
  ++ (if s.main_content ≠ "" then
      (if ["•", "-", "*", "1.", "2.", "3."].any (fun i => strIncludes s.main_content i)
        then [(3 : ℚ)/10] else [])
      ++ (if 10 < s.main_content.length ∧ s.main_content.length < 1000
        then [(2 : ℚ)/10] else [])
    else [])

/-- Per-slide contribution to `_validate_robust`. -/
def robustSlideScore (s : DSlide) : Option ℚ :=
  let parts := robustParts s
  if parts.length = 0 then none else some (parts.sum / parts.length)

/-- `_validate_robust` (lines 692-731). -/
def validateRobust (slides : List DSlide) : ℚ :=
  avgOrZero (slides.filterMap robustSlideScore)

/-- The scores of an `AccessibilityComplianceReport`
(`models/accessibility_content.py` lines 70-81; the model constrains every
score field with `ge=0.0, le=1.0`). -/
structure AccReportD where
  perceivable_score : ℚ
  operable_score : ℚ
  understandable_score : ℚ
  robust_score : ℚ
  overall_score : ℚ
deriving DecidableEq

/-- `_validate_wcag_compliance` (accessibility_agent.py lines 132-206): the
four principle scores and their mean at line 141; the `wcag_level` and
principle objects do not affect the scores. -/
def validateWcagCompliance (slides : List DSlide) : AccReportD :=
  { perceivable_score := validatePerceivable slides
  , operable_score := validateOperable slides
  , understandable_score := validateUnderstandable slides
  , robust_score := validateRobust slides
  , overall_score := (validatePerceivable slides + validateOperable slides
      + validateUnderstandable slides + validateRobust slides) / 4 }

theorem optionElim_unit {α : Type} (o : Option α) (f : α → ℚ)
    (hf : ∀ x, 0 ≤ f x ∧ f x ≤ 1) : 0 ≤ o.elim 0 f ∧ o.elim 0 f ≤ 1 := by
  cases o with
  | none => norm_num
  | some x => simpa using hf x

theorem analyzeAltTextCompliance_mem (s : DSlide) :
    0 ≤ analyzeAltTextCompliance s ∧ analyzeAltTextCompliance s ≤ 1 := by
  unfold analyzeAltTextCompliance
  dsimp only
  split_ifs with h1 h2
  · norm_num
  · refine min_unit (by norm_num) (by norm_num) ?_
    apply div_nonneg
    · apply List.sum_nonneg
      intro x hx
      rw [List.mem_map] at hx
      obtain ⟨el, _, hel⟩ := hx
      rw [← hel]
      have a1 : (0 : ℚ) ≤ if el.alt_text ≠ "" ∧ 5 < el.alt_text.trim.length then (4 : ℚ)/10
          else if el.alt_text ≠ "" ∧ 0 < el.alt_text.trim.length then 2/10 else 0 := by
        split_ifs <;> norm_num
      have a2 : (0 : ℚ) ≤ if el.description ≠ "" ∧ 10 < el.description.trim.length
            then (3 : ℚ)/10
          else if el.description ≠ "" ∧ 0 < el.description.trim.length then 1/10 else 0 := by
        split_ifs <;> norm_num
      have a3 : (0 : ℚ) ≤ if strIncludes (pyLower el.alt_text) "decorative"
            || strIncludes (pyLower el.description) "decorative" then (1 : ℚ)/10 else 0 := by
        split_ifs <;> norm_num
      linarith
    · positivity
  · norm_num

theorem analyzeTextAlternatives_mem (s : DSlide) :
    0 ≤ analyzeTextAlternatives s ∧ analyzeTextAlternatives s ≤ 1 := by
  unfold analyzeTextAlternatives
  dsimp only
  exact mean4_mem (by split_ifs <;> norm_num) (by split_ifs <;> norm_num)
    (by split_ifs <;> norm_num) (by split_ifs <;> norm_num)

theorem analyzeColorContrast_mem (s : DSlide) :
    0 ≤ analyzeColorContrast s ∧ analyzeColorContrast s ≤ 1 := by
  unfold analyzeColorContrast
  dsimp only
  exact mean4_mem
    (ite_term_unit _ _ (min_unit (by norm_num) (by norm_num) (by positivity)))
    (by split_ifs <;> norm_num)
    (ite_term_unit _ _ (min_unit (by norm_num) (by norm_num) (by positivity)))
    (by split_ifs <;> norm_num)

theorem analyzeTextScaling_mem (s : DSlide) :
    0 ≤ analyzeTextScaling s ∧ analyzeTextScaling s ≤ 1 := by
  unfold analyzeTextScaling
  dsimp only
  exact mean5_mem (by split_ifs <;> norm_num) (by split_ifs <;> norm_num)
    (by split_ifs <;> norm_num) (by split_ifs <;> norm_num) (by split_ifs <;> norm_num)

theorem analyzeKeyboardAccessibility_mem (s : DSlide) :
    0 ≤ analyzeKeyboardAccessibility s ∧ analyzeKeyboardAccessibility s ≤ 1 := by
  unfold analyzeKeyboardAccessibility
  dsimp only
  exact mean5_mem (by split_ifs <;> norm_num) (by split_ifs <;> norm_num)
    (by split_ifs <;> norm_num) (by split_ifs <;> norm_num) (by split_ifs <;> norm_num)

theorem analyzeSeizureSafety_mem (s : DSlide) :
    0 ≤ analyzeSeizureSafety s ∧ analyzeSeizureSafety s ≤ 1 := by
  unfold analyzeSeizureSafety
  dsimp only
  exact mean4_mem (by split_ifs <;> norm_num) (by split_ifs <;> norm_num)
    (optionElim_unit _ _ (fun el => by split_ifs <;> norm_num))
    (by split_ifs <;> norm_num)

theorem analyzeNavigationAccessibility_mem (s : DSlide) :
    0 ≤ analyzeNavigationAccessibility s ∧ analyzeNavigationAccessibility s ≤ 1 := by
  unfold analyzeNavigationAccessibility
  dsimp only
  exact mean5_mem (by split_ifs <;> norm_num) (by split_ifs <;> norm_num)
    (by split_ifs <;> norm_num) (by split_ifs <;> norm_num) (by split_ifs <;> norm_num)

theorem analyzeInputAccessibility_mem (s : DSlide) :
    0 ≤ analyzeInputAccessibility s ∧ analyzeInputAccessibility s ≤ 1 := by
  unfold analyzeInputAccessibility
  dsimp only
  exact mean5_mem (by split_ifs <;> norm_num) (by split_ifs <;> norm_num)
    (by split_ifs <;> norm_num) (by split_ifs <;> norm_num) (by split_ifs <;> norm_num)

theorem validatePerceivable_mem (slides : List DSlide) :
    0 ≤ validatePerceivable slides ∧ validatePerceivable slides ≤ 1 := by
  unfold validatePerceivable
  apply avgOrZero_mem
  intro x hx
  rw [List.mem_filterMap] at hx
  obtain ⟨s, _, hs⟩ := hx
  unfold perceivableSlideScore at hs
  dsimp only at hs
  have hmem : ∀ y ∈ positiveParts [analyzeAltTextCompliance s, analyzeTextAlternatives s,
      analyzeColorContrast s, analyzeTextScaling s], 0 ≤ y ∧ y ≤ 1 := by
    apply positiveParts_mem
    intro y hy
    simp only [List.mem_cons, List.not_mem_nil, or_false] at hy
    rcases hy with h | h | h | h <;> rw [h]
    · exact (analyzeAltTextCompliance_mem s).2
    · exact (analyzeTextAlternatives_mem s).2
    · exact (analyzeColorContrast_mem s).2
    · exact (analyzeTextScaling_mem s).2
  split_ifs at hs with hparts
  have hres := partsAvg_mem _ hparts hmem
  simp only [Option.some.injEq] at hs
  rw [← hs]
  exact hres

theorem validateOperable_mem (slides : List DSlide) :
    0 ≤ validateOperable slides ∧ validateOperable slides ≤ 1 := by
  unfold validateOperable
  apply avgOrZero_mem
  intro x hx
  rw [List.mem_filterMap] at hx
  obtain ⟨s, _, hs⟩ := hx
  unfold operableSlideScore at hs
  dsimp only at hs
  have hmem : ∀ y ∈ positiveParts [analyzeKeyboardAccessibility s, analyzeSeizureSafety s,
      analyzeNavigationAccessibility s, analyzeInputAccessibility s], 0 ≤ y ∧ y ≤ 1 := by
    apply positiveParts_mem
    intro y hy
    simp only [List.mem_cons, List.not_mem_nil, or_false] at hy
    rcases hy with h | h | h | h <;> rw [h]
    · exact (analyzeKeyboardAccessibility_mem s).2
    · exact (analyzeSeizureSafety_mem s).2
    · exact (analyzeNavigationAccessibility_mem s).2
    · exact (analyzeInputAccessibility_mem s).2
  split_ifs at hs with hparts
  have hres := partsAvg_mem _ hparts hmem
  simp only [Option.some.injEq] at hs
  rw [← hs]
  exact hres

theorem understandableParts_mem (s : DSlide) :
    ∀ x ∈ understandableParts s, 0 ≤ x ∧ x ≤ 1 := by
  intro x hx
  unfold understandableParts at hx
  rcases List.mem_append.mp hx with h | h
  · rcases List.mem_append.mp (mem_ite_nil h) with h2 | h2 <;>
    · have hm := mem_ite_nil h2
      simp only [List.mem_singleton] at hm
      rw [hm]
      norm_num
  · have hm := mem_ite_nil (mem_ite_nil h)
    simp only [List.mem_singleton] at hm
    rw [hm]
    norm_num

theorem robustParts_mem (s : DSlide) :
    ∀ x ∈ robustParts s, 0 ≤ x ∧ x ≤ 1 := by
  intro x hx
  unfold robustParts at hx
  rcases List.mem_append.mp hx with h | h
  · have hm := mem_ite_nil h
    simp only [List.mem_singleton] at hm
    rw [hm]
    norm_num
  · rcases List.mem_append.mp (mem_ite_nil h) with h2 | h2 <;>
    · have hm := mem_ite_nil h2
      simp only [List.mem_singleton] at hm
      rw [hm]
      norm_num

theorem validateUnderstandable_mem (slides : List DSlide) :
    0 ≤ validateUnderstandable slides ∧ validateUnderstandable slides ≤ 1 := by
  unfold validateUnderstandable
  apply avgOrZero_mem
  intro x hx
  rw [List.mem_filterMap] at hx
  obtain ⟨s, _, hs⟩ := hx
  unfold understandableSlideScore at hs
  dsimp only at hs
  split_ifs at hs with hparts
  have hres := partsAvg_mem _ hparts (understandableParts_mem s)
  simp only [Option.some.injEq] at hs
  rw [← hs]
  exact hres

theorem validateRobust_mem (slides : List DSlide) :
    0 ≤ validateRobust slides ∧ validateRobust slides ≤ 1 := by
  unfold validateRobust
  apply avgOrZero_mem
  intro x hx
  rw [List.mem_filterMap] at hx
  obtain ⟨s, _, hs⟩ := hx
  unfold robustSlideScore at hs
  dsimp only at hs
  split_ifs at hs with hparts
  have hres := partsAvg_mem _ hparts (robustParts_mem s)
  simp only [Option.some.injEq] at hs
  rw [← hs]
  exact hres

/-- The UDL AI environment that never yields a parsed score, so every
principle takes the heuristic fallback path. -/
def envNoAi : UdlAiEnv := ⟨fun _ => none⟩

/-- The UDL AI environment whose representation analysis parses to the
out-of-range score 1.5 (nothing in the reply pipeline clamps it). -/
def envBadScore : UdlAiEnv :=
  ⟨fun p => if p = "representation" then some (some (3/2)) else some none⟩

/-- C4 — counterexample. The claim asserts every sub-score of every produced
ValidationReport lies in [0,1]. The UDL validator passes the external
reply's `overall_score` through unclamped
(`analysis_result.get("overall_score", 0.5)`, udl_agent.py line 310, with no
bound in `UDLComplianceReport`), so a reply scoring 1.5 produces a report
whose representation sub-score is 1.5 > 1. -/
theorem c4_counterexample :
    (calculateUdlCompliance envBadScore []).representation_score = 3/2
      ∧ ¬ ((calculateUdlCompliance envBadScore []).representation_score ≤ 1) := by
  have h : (calculateUdlCompliance envBadScore []).representation_score = 3/2 := by
    simp [calculateUdlCompliance, calculatePrincipleScore, envBadScore]
  refine ⟨h, ?_⟩
  rw [h]
  norm_num

/-- C4 — amended. In every report any of the three validator stages
produces, the overall score equals the arithmetic mean of the sub-scores
(three for the UDL report, four for the design report, four for the
accessibility report); the design and accessibility sub-scores — and hence
their overalls — always lie in [0,1]; and the UDL sub-scores and overall lie
in [0,1] whenever each score parsed from the external reply does (in
particular whenever the heuristic fallback is used), but an out-of-range
reply score is passed through unclamped. -/
theorem c4_scores_amended (env : UdlAiEnv) (slides : List DSlide) :
    ((calculateUdlCompliance env slides).overall_compliance
        = ((calculateUdlCompliance env slides).representation_score
            + (calculateUdlCompliance env slides).action_expression_score
            + (calculateUdlCompliance env slides).engagement_score) / 3)
      ∧ ((validateCrapPrinciples slides).overall_score
          = ((validateCrapPrinciples slides).contrast_score
              + (validateCrapPrinciples slides).repetition_score
              + (validateCrapPrinciples slides).alignment_score
              + (validateCrapPrinciples slides).proximity_score) / 4)
      ∧ (0 ≤ (validateCrapPrinciples slides).contrast_score
          ∧ (validateCrapPrinciples slides).contrast_score ≤ 1)
      ∧ (0 ≤ (validateCrapPrinciples slides).repetition_score
          ∧ (validateCrapPrinciples slides).repetition_score ≤ 1)
      ∧ (0 ≤ (validateCrapPrinciples slides).alignment_score
          ∧ (validateCrapPrinciples slides).alignment_score ≤ 1)
      ∧ (0 ≤ (validateCrapPrinciples slides).proximity_score
          ∧ (validateCrapPrinciples slides).proximity_score ≤ 1)
      ∧ (0 ≤ (validateCrapPrinciples slides).overall_score
          ∧ (validateCrapPrinciples slides).overall_score ≤ 1)
      ∧ ((∀ p v, env.analysis p = some (some v) → 0 ≤ v ∧ v ≤ 1) →
          (0 ≤ (calculateUdlCompliance env slides).representation_score
              ∧ (calculateUdlCompliance env slides).representation_score ≤ 1)
            ∧ (0 ≤ (calculateUdlCompliance env slides).action_expression_score
              ∧ (calculateUdlCompliance env slides).action_expression_score ≤ 1)
            ∧ (0 ≤ (calculateUdlCompliance env slides).engagement_score
              ∧ (calculateUdlCompliance env slides).engagement_score ≤ 1)
            ∧ (0 ≤ (calculateUdlCompliance env slides).overall_compliance
              ∧ (calculateUdlCompliance env slides).overall_compliance ≤ 1))
      ∧ ((validateWcagCompliance slides).overall_score
          = ((validateWcagCompliance slides).perceivable_score
              + (validateWcagCompliance slides).operable_score
              + (validateWcagCompliance slides).understandable_score
              + (validateWcagCompliance slides).robust_score) / 4)
      ∧ (0 ≤ (validateWcagCompliance slides).perceivable_score
          ∧ (validateWcagCompliance slides).perceivable_score ≤ 1)
      ∧ (0 ≤ (validateWcagCompliance slides).operable_score
          ∧ (validateWcagCompliance slides).operable_score ≤ 1)
      ∧ (0 ≤ (validateWcagCompliance slides).understandable_score
          ∧ (validateWcagCompliance slides).understandable_score ≤ 1)
      ∧ (0 ≤ (validateWcagCompliance slides).robust_score
          ∧ (validateWcagCompliance slides).robust_score ≤ 1)
      ∧ (0 ≤ (validateWcagCompliance slides).overall_score
          ∧ (validateWcagCompliance slides).overall_score ≤ 1) := by
  have hc := validateContrast_mem slides
  have hr := validateRepetition_mem slides
  have ha := validateAlignment_mem slides
  have hp := validateProximity_mem slides
  have hP := validatePerceivable_mem slides
  have hO := validateOperable_mem slides
  have hU := validateUnderstandable_mem slides
  have hR := validateRobust_mem slides
  have hprin : ∀ p, (∀ q v, env.analysis q = some (some v) → 0 ≤ v ∧ v ≤ 1) →
      0 ≤ calculatePrincipleScore env slides p ∧ calculatePrincipleScore env slides p ≤ 1 := by
    intro p hok
    unfold calculatePrincipleScore
    split_ifs
    · cases hres : env.analysis p with
      | none => exact calculateBasicPrincipleScore_mem slides p
      | some o =>
        cases o with
        | none => norm_num
        | some v => exact hok p v hres
    · norm_num
  refine ⟨rfl, rfl, ?_, ?_, ?_, ?_, ?_, ?_, rfl, ?_, ?_, ?_, ?_, ?_⟩
  · exact hc
  · exact hr
  · exact ha
  · exact hp
  · constructor
    · show 0 ≤ (validateContrast slides + validateRepetition slides + validateAlignment slides
        + validateProximity slides) / 4
      rcases hc with ⟨h1, _⟩; rcases hr with ⟨h2, _⟩; rcases ha with ⟨h3, _⟩
      rcases hp with ⟨h4, _⟩
      linarith
    · show (validateContrast slides + validateRepetition slides + validateAlignment slides
        + validateProximity slides) / 4 ≤ 1
      rcases hc with ⟨_, h1⟩; rcases hr with ⟨_, h2⟩; rcases ha with ⟨_, h3⟩
      rcases hp with ⟨_, h4⟩
      linarith
  · intro hok
    have h1 := hprin "representation" hok
    have h2 := hprin "action_expression" hok
    have h3 := hprin "engagement" hok
    refine ⟨h1, h2, h3, ?_, ?_⟩
    · show 0 ≤ (calculatePrincipleScore env slides "representation"
        + calculatePrincipleScore env slides "action_expression"
        + calculatePrincipleScore env slides "engagement") / 3
      rcases h1 with ⟨a1, _⟩; rcases h2 with ⟨a2, _⟩; rcases h3 with ⟨a3, _⟩
      linarith
    · show (calculatePrincipleScore env slides "representation"
        + calculatePrincipleScore env slides "action_expression"
        + calculatePrincipleScore env slides "engagement") / 3 ≤ 1
      rcases h1 with ⟨_, b1⟩; rcases h2 with ⟨_, b2⟩; rcases h3 with ⟨_, b3⟩
      linarith
  · exact hP
  · exact hO
  · exact hU
  · exact hR
  · constructor
    · show 0 ≤ (validatePerceivable slides + validateOperable slides
        + validateUnderstandable slides + validateRobust slides) / 4
      rcases hP with ⟨p1, _⟩; rcases hO with ⟨o1, _⟩; rcases hU with ⟨u1, _⟩
      rcases hR with ⟨r1, _⟩
      linarith
    · show (validatePerceivable slides + validateOperable slides
        + validateUnderstandable slides + validateRobust slides) / 4 ≤ 1
      rcases hP with ⟨_, p2⟩; rcases hO with ⟨_, o2⟩; rcases hU with ⟨_, u2⟩
      rcases hR with ⟨_, r2⟩
      linarith

/-- C4 — witness: with no parsable AI reply (heuristic fallback everywhere)
and an empty slide list, the amended theorem places the UDL representation
sub-score in [0,1]. -/
theorem c4_scores_amended_witness :
    0 ≤ (calculateUdlCompliance envNoAi []).representation_score
      ∧ (calculateUdlCompliance envNoAi []).representation_score ≤ 1 :=
  ((c4_scores_amended envNoAi []).2.2.2.2.2.2.2.1
    (fun p v h => by simp [envNoAi] at h)).1

/-! ## Pipeline Coordinator
Embeds `coordinator_agent.py` `process` (lines 58-456) together with the
response builders of `base_agent.py` (`_create_success_response`,
`_create_error_response`, lines 205-248) and the coordinator's fallback
builders (`_create_fallback_content`, `_create_fallback_udl_compliance`,
`_create_fallback_design_compliance`,
`_create_fallback_accessibility_compliance`).

Each phase's agent call (`asyncio.wait_for(...)`) is an environment oracle:
it can time out, raise, return an error response (`success: false`), or
return a success payload. Success payloads are typed to the shape the
sub-agents actually produce (their `process` methods build them from
validated models), which is what makes the coordinator's reconstruction
steps total. The three validator oracles are functions of the slide list
they are handed, so the data flow between phases is visible in the model. -/

/-- Payload of a successful UDL-phase response (`udl_agent.py` lines 99-104):
the report, the enhanced slides, recommendations and features. -/
structure UdlData where
  report : UdlReportD
  enhanced : Option (List DSlide)
  recommendations : List String
  features : List String
deriving DecidableEq

/-- Payload of a successful design-phase response (`design_agent.py`
lines 126-140). -/
structure DesignData where
  report : DesignReportD
  enhanced : Option (List DSlide)
  recommendations : List String
deriving DecidableEq

/-- Payload of a successful accessibility-phase response. -/
structure AccData where
  report : AccReportD
  enhanced : Option (List DSlide)
  recommendations : List String
deriving DecidableEq

/-- Payload of a successful plan-phase response: objectives, lesson plan and
Gagne events (reconstructed as objects at coordinator lines 124-131). -/
structure PlanData where
  objectives : List String
  lessonPlanTitle : String
  gagneEvents : List GEventVal
deriving DecidableEq

/-- Payload of a successful content-phase response
(`gagne_slides_response` fields the coordinator reads). -/
structure ContentData where
  events : List CEventSlides
  totalSlides : ℕ
  totalDuration : ℚ
deriving DecidableEq

/-- Outcome of one `asyncio.wait_for(agent.process(...))` call as the
coordinator observes it. -/
inductive PhaseResult (α : Type)
  | timeout
  | raised (msg : String)
  | failure (msg : String)
  | ok (val : α)

/-- The request object handed to the coordinator (only its presence and
identity matter to the embedded control flow). -/
structure PlanRequest where
  courseTitle : String
deriving DecidableEq

/-- `input_data` for `process`: `input_data.get("lesson_request")`. -/
structure CoordInput where
  lessonRequest : Option PlanRequest

/-- The five phase oracles of one pipeline run. The validator oracles are
functions of the slide list passed to them. -/
structure CoordEnv where
  plan : PhaseResult PlanData
  content : PhaseResult ContentData
  udl : List DSlide → PhaseResult UdlData
  design : List DSlide → PhaseResult DesignData
  access : List DSlide → PhaseResult AccData

/-- `_create_fallback_udl_compliance` (coordinator_agent.py lines 623-647):
representation 0.6, action/expression 0.5, engagement 0.5, overall 0.53;
no `enhanced_slides` key. -/
def createFallbackUdlCompliance : UdlData :=
  { report := ⟨6/10, 5/10, 5/10, 53/100⟩
  , enhanced := none
  , recommendations := ["Implement multiple means of representation",
      "Add engagement strategies", "Provide multiple means of action and expression"]
  , features := ["alt_text", "keyboard_navigation"] }

/-- `_create_fallback_design_compliance` (lines 775-794): every score 0.5. -/
def createFallbackDesignCompliance : DesignData :=
  { report := ⟨5/10, 5/10, 5/10, 5/10, 5/10⟩
  , enhanced := none
  , recommendations := ["Implement basic C.R.A.P. design principles"] }

/-- `_create_fallback_accessibility_compliance` (lines 796-815): every
score 0.5. -/
def createFallbackAccessibilityCompliance : AccData :=
  { report := ⟨5/10, 5/10, 5/10, 5/10, 5/10⟩
  , enhanced := none
  , recommendations := ["Implement basic WCAG accessibility guidelines"] }

/-- First fallback slide per event in `_create_fallback_content`
(lines 544-562). -/
def fallbackOverviewSlide (e : GEventVal) : DSlide :=
  { title := e.name ++ " - Overview"
  , main_content := "# " ++ e.name ++ "\n\n" ++ e.description ++ "\n\n## Activities:\n"
      ++ String.intercalate "\n" (e.activities.map (fun a => "- " ++ a))
  , visual_elements := []
  , activities := e.activities.take 2
  , audio_script := "Audio narration for " ++ e.name
  , udl_guidelines := ["multiple_representation", "engagement"]
  , accessibility_features := ["alt_text", "keyboard_navigation"] }

/-- Second fallback slide per event (lines 563-580). -/
def fallbackDetailSlide (e : GEventVal) : DSlide :=
  { title := e.name ++ " - Details"
  , main_content := "# " ++ e.name ++ " - Detailed Content\n\n## Materials Needed:\n"
      ++ String.intercalate "\n" (e.materials.map (fun m => "- " ++ m))
  , visual_elements := []
  , activities := (e.activities.drop 2).take 2
  , audio_script := "Detailed audio narration for " ++ e.name
  , udl_guidelines := ["multiple_representation", "engagement"]
  , accessibility_features := ["alt_text", "keyboard_navigation"] }

/-- `_create_fallback_content` (lines 529-621): two basic slides per Gagne
event, totals accumulated alongside. -/
def createFallbackContent (events : List GEventVal) : ContentData :=
  { events := events.map (fun e =>
      { number := e.number, name := e.name, description := e.description
      , totalSlides := 2
      , slides := [fallbackOverviewSlide e, fallbackDetailSlide e]
      , materialsSummary := e.materials, assessmentNotes := e.assessment })
  , totalSlides := 2 * events.length
  , totalDuration := (((events.map (·.durationMinutes)).sum : ℤ) : ℚ) }

/-- The slide list a validator phase passes on to the next phase
(coordinator lines 306-313, 339-346, 372-379): on success the
`enhanced_slides` payload replaces the list when present; on
timeout/exception/error the list is left unchanged (the fallback dicts carry
no `enhanced_slides` key). -/
def nextSlides {α : Type} (res : PhaseResult α) (enh : α → Option (List DSlide))
    (s : List DSlide) : List DSlide :=
  match res with
  | .ok d => (enh d).getD s
  | _ => s

/-- The payload a validator phase contributes (fallback on any failure). -/
def phaseData {α : Type} (res : PhaseResult α) (fallback : α) : α :=
  match res with
  | .ok d => d
  | _ => fallback

/-- The slide-redistribution loop (coordinator lines 396-407): each event's
slide list is replaced by the next `len(event.slides)` enhanced slides while
any remain; events beyond the enhanced supply keep their original slides.
Only the `slides` field is rewritten (`total_slides` is not updated). -/
def redistributeSlides : List CEventSlides → List DSlide → ℕ → List CEventSlides
  | [], _, _ => []
  | ev :: rest, enh, idx =>
    if idx < enh.length then
      let newSlides := (enh.drop idx).take ev.slides.length
      { ev with slides := newSlides } :: redistributeSlides rest enh (idx + newSlides.length)
    else ev :: redistributeSlides rest enh idx

/-- The keys of the aggregate `result` dict literal (coordinator
lines 411-430), in construction order. -/
def coordinatorResultKeys : List String :=
  ["lesson_plan", "content", "udl_compliance", "design_compliance",
   "accessibility_compliance", "recommendations", "design_recommendations",
   "accessibility_recommendations", "accessibility_features"]

/-- The keys of the `metadata` dict literal (lines 432-445). -/
def coordinatorMetadataKeys : List String :=
  ["phases_completed", "total_objectives", "total_events", "total_slides",
   "overall_udl_compliance", "processing_time", "agent_versions"]

/-- `metadata["phases_completed"]` (line 433): a fixed literal naming every
phase, written unconditionally. -/
def coordinatorPhasesCompleted : List String :=
  ["plan", "content", "udl", "design", "accessibility"]

/-- The values stored under `coordinatorResultKeys`. -/
structure AggContent where
  events : List CEventSlides
  enhancedSlides : List DSlide
  totalSlides : ℕ
  totalDuration : ℚ
deriving DecidableEq

structure AggData where
  lesson_plan : PlanData
  content : AggContent
  udl_compliance : UdlReportD
  design_compliance : DesignReportD
  accessibility_compliance : AccReportD
  recommendations : List String
  design_recommendations : List String
  accessibility_recommendations : List String
  accessibility_features : List String
deriving DecidableEq

/-- The values stored under `coordinatorMetadataKeys` that are not constant
strings. -/
structure MetaData where
  phases_completed : List String
  total_objectives : ℕ
  total_events : ℕ
  total_slides : ℕ
  overall_udl_compliance : ℚ
deriving DecidableEq

/-- The response dict shape of `base_agent.py`. -/
structure RespDict where
  success : Bool
  data : Option AggData
  metadata : Option MetaData
  error : Option String
  agent : Option String
deriving DecidableEq

/-- `_create_success_response` (base_agent.py lines 228-248). -/
def createSuccessResponse (d : AggData) (m : MetaData) : RespDict :=
  { success := true, data := some d, metadata := some m, error := none
  , agent := some "CoordinatorAgent" }

/-- `_create_error_response` (base_agent.py lines 205-226), as the
coordinator calls it (no fallback data). -/
def createErrorResponse (msg : String) : RespDict :=
  { success := false, data := none, metadata := none, error := some msg
  , agent := some "CoordinatorAgent" }

/-- One invocation in the run's phase trace, with the slide list each
validator received. -/
inductive PhaseCall
  | planCall
  | contentCall
  | udlCall (slides : List DSlide)
  | designCall (slides : List DSlide)
  | accessCall (slides : List DSlide)
deriving DecidableEq

/-- The `gagne_slides_response` data after the content phase (coordinator
lines 141-173): the phase result on success, the fallback content otherwise. -/
def pipelineContent (env : CoordEnv) (pd : PlanData) : ContentData :=
  phaseData env.content (createFallbackContent pd.gagneEvents)

/-- `all_slides` flattened from the content events (line 288:
`for event in gagne_slides_response.events: all_slides.extend(event.slides)`). -/
def pipelineSlides0 (env : CoordEnv) (pd : PlanData) : List DSlide :=
  ((pipelineContent env pd).events.map (·.slides)).flatten

/-- The slide list after the UDL phase (lines 291-313). -/
def pipelineSlides1 (env : CoordEnv) (pd : PlanData) : List DSlide :=
  nextSlides (env.udl (pipelineSlides0 env pd)) (·.enhanced) (pipelineSlides0 env pd)

/-- The slide list after the design phase (lines 326-346). -/
def pipelineSlides2 (env : CoordEnv) (pd : PlanData) : List DSlide :=
  nextSlides (env.design (pipelineSlides1 env pd)) (·.enhanced) (pipelineSlides1 env pd)

/-- The slide list after the accessibility phase (lines 359-379). -/
def pipelineSlides3 (env : CoordEnv) (pd : PlanData) : List DSlide :=
  nextSlides (env.access (pipelineSlides2 env pd)) (·.enhanced) (pipelineSlides2 env pd)

/-- `udl_data`: the UDL phase payload, or its fallback (lines 291-305). -/
def pipelineUdlData (env : CoordEnv) (pd : PlanData) : UdlData :=
  phaseData (env.udl (pipelineSlides0 env pd)) createFallbackUdlCompliance

/-- `design_data`: the design phase payload, or its fallback (lines 326-338). -/
def pipelineDesignData (env : CoordEnv) (pd : PlanData) : DesignData :=
  phaseData (env.design (pipelineSlides1 env pd)) createFallbackDesignCompliance

/-- `accessibility_data`: the accessibility phase payload, or its fallback
(lines 359-371). -/
def pipelineAccessData (env : CoordEnv) (pd : PlanData) : AccData :=
  phaseData (env.access (pipelineSlides2 env pd)) createFallbackAccessibilityCompliance

/-- The event list after `enhanced_slides` redistribution (lines 385-407). -/
def pipelineFinalEvents (env : CoordEnv) (pd : PlanData) : List CEventSlides :=
  if pipelineSlides3 env pd = [] then (pipelineContent env pd).events
  else redistributeSlides (pipelineContent env pd).events (pipelineSlides3 env pd) 0

/-- The aggregate `result` dict (lines 411-430). -/
def pipelineAgg (env : CoordEnv) (pd : PlanData) : AggData :=
  { lesson_plan := pd
  , content := ⟨pipelineFinalEvents env pd, pipelineSlides3 env pd,
      (pipelineContent env pd).totalSlides, (pipelineContent env pd).totalDuration⟩
  , udl_compliance := (pipelineUdlData env pd).report
  , design_compliance := (pipelineDesignData env pd).report
  , accessibility_compliance := (pipelineAccessData env pd).report
  , recommendations := (pipelineUdlData env pd).recommendations
  , design_recommendations := (pipelineDesignData env pd).recommendations
  , accessibility_recommendations := (pipelineAccessData env pd).recommendations
  , accessibility_features := (pipelineUdlData env pd).features }

/-- The `metadata` dict (lines 432-445). -/
def pipelineMeta (env : CoordEnv) (pd : PlanData) : MetaData :=
  { phases_completed := coordinatorPhasesCompleted
  , total_objectives := pd.objectives.length
  , total_events := pd.gagneEvents.length
  , total_slides := (pipelineContent env pd).totalSlides
  , overall_udl_compliance := (pipelineUdlData env pd).report.overall_compliance }

/-- The body of `process` inside its outer `try` (lines 75-452), returning
either the success payload or the message of the exception that escaped, plus
the ordered trace of phase invocations. A missing `lesson_request` raises
before any phase; a plan timeout raises the line-107 message; a plan error
response raises `Plan phase failed: ...` (line 117); every later phase
failure is absorbed into its fallback payload (lines 152-173, 291-313,
326-346, 359-379). -/
def runCoordinator (env : CoordEnv) (inp : CoordInput) :
    Except String (AggData × MetaData) × List PhaseCall :=
  match inp.lessonRequest with
  | none => (.error "lesson_request is required", [])
  | some _ =>
    match env.plan with
    | .timeout => (.error "Plan generation timed out. Please try again.", [.planCall])
    | .raised msg => (.error msg, [.planCall])
    | .failure msg => (.error ("Plan phase failed: " ++ msg), [.planCall])
    | .ok planData =>
      (.ok (pipelineAgg env planData, pipelineMeta env planData),
        [.planCall, .contentCall, .udlCall (pipelineSlides0 env planData),
          .designCall (pipelineSlides1 env planData), .accessCall (pipelineSlides2 env planData)])

/-- `process` with the outer `except Exception` mapping every escaped
exception to `_create_error_response` (lines 454-456), paired with the phase
trace. -/
def processT (env : CoordEnv) (inp : CoordInput) : RespDict × List PhaseCall :=
  let r := runCoordinator env inp
  (match r.1 with
   | .ok dm => createSuccessResponse dm.1 dm.2
   | .error e => createErrorResponse e, r.2)

/-- The coordinator's `process` as its caller sees it. -/
def coordinatorProcess (env : CoordEnv) (inp : CoordInput) : RespDict :=
  (processT env inp).1

/-- Reduction of a run whose plan phase succeeded. -/
theorem processT_ok (env : CoordEnv) (inp : CoordInput) (lr : PlanRequest) (pd : PlanData)
    (hlr : inp.lessonRequest = some lr) (hplan : env.plan = .ok pd) :
    processT env inp
      = (createSuccessResponse (pipelineAgg env pd) (pipelineMeta env pd),
          [.planCall, .contentCall, .udlCall (pipelineSlides0 env pd),
            .designCall (pipelineSlides1 env pd), .accessCall (pipelineSlides2 env pd)]) := by
  unfold processT runCoordinator
  rw [hlr, hplan]

/-- Response reduction of a run whose plan phase succeeded. -/
theorem coordinatorProcess_ok (env : CoordEnv) (inp : CoordInput) (lr : PlanRequest)
    (pd : PlanData) (hlr : inp.lessonRequest = some lr) (hplan : env.plan = .ok pd) :
    coordinatorProcess env inp
      = createSuccessResponse (pipelineAgg env pd) (pipelineMeta env pd) := by
  unfold coordinatorProcess
  rw [processT_ok env inp lr pd hlr hplan]

/-- A result dict is well-formed when it is either a success response
carrying data and metadata or an error response carrying the message and the
agent name. -/
def wellFormedResp (r : RespDict) : Prop :=
  (r.success = true ∧ r.data.isSome = true ∧ r.metadata.isSome = true
      ∧ r.agent = some "CoordinatorAgent")
    ∨ (r.success = false ∧ r.error.isSome = true ∧ r.agent = some "CoordinatorAgent")

/-- C10 — confirmed. The coordinator's `process` is total at its boundary:
for every environment and input it returns a well-formed result dict — a
success dict with a data payload, or an error dict with the message and the
agent name — and never propagates an exception (the embedding covers Python
`Exception`s; `BaseException`s such as task cancellation are outside the
model). -/
theorem c10_boundary_total (env : CoordEnv) (inp : CoordInput) :
    wellFormedResp (coordinatorProcess env inp) := by
  unfold coordinatorProcess processT runCoordinator wellFormedResp
  rcases inp with ⟨lr⟩
  cases lr with
  | none => right; simp [createErrorResponse]
  | some r =>
    cases env.plan with
    | timeout => right; simp [createErrorResponse]
    | raised msg => right; simp [createErrorResponse]
    | failure msg => right; simp [createErrorResponse]
    | ok pd => left; simp [createSuccessResponse]

/-- Plan-stage success: the plan phase produced a success response. -/
def planSucceeded (env : CoordEnv) : Prop := ∃ pd, env.plan = .ok pd

/-- C2 — confirmed. With a lesson request present, `process` returns an error
response exactly when the Plan phase fails (timeout, exception, or error
response); whenever the Plan phase succeeds the run returns a success
response with a complete aggregate payload, no matter how the Content phase
and the three validator phases behave. -/
theorem c2_error_iff_plan_failed (env : CoordEnv) (inp : CoordInput)
    (hreq : inp.lessonRequest.isSome = true) :
    ((coordinatorProcess env inp).success = false ↔ ¬ planSucceeded env)
      ∧ (planSucceeded env → (coordinatorProcess env inp).data.isSome = true) := by
  obtain ⟨lr, hlr⟩ := Option.isSome_iff_exists.mp hreq
  unfold coordinatorProcess processT runCoordinator planSucceeded
  rw [hlr]
  cases env.plan with
  | timeout =>
    constructor
    · simp [createErrorResponse]
    · rintro ⟨pd, hpd⟩
      exact PhaseResult.noConfusion hpd
  | raised msg =>
    constructor
    · simp [createErrorResponse]
    · rintro ⟨pd, hpd⟩
      exact PhaseResult.noConfusion hpd
  | failure msg =>
    constructor
    · simp [createErrorResponse]
    · rintro ⟨pd, hpd⟩
      exact PhaseResult.noConfusion hpd
  | ok pd =>
    constructor
    · simp [createSuccessResponse]
    · intro _
      simp [createSuccessResponse]

/-- Request and environments used as concrete run instances. -/
def inpW : CoordInput := ⟨some ⟨"Data Structures"⟩⟩

def planDataW : PlanData :=
  { objectives := ["Students will be able to define a queue"]
  , lessonPlanTitle := "Queues"
  , gagneEvents := [⟨.obj, 1, "Gain Attention", "Capture student interest",
      ["Opening question"], 5, ["Slides"], none⟩] }

def slideW : DSlide :=
  ⟨"Queues - Intro", "# Queues\n\nFIFO structure", [], [], "Audio narration",
    ["engagement"], ["alt_text"]⟩

def contentDataW : ContentData :=
  { events := [⟨1, "Gain Attention", "Capture student interest", 1, [slideW], ["Slides"], none⟩]
  , totalSlides := 1, totalDuration := 5 }

/-- A run whose plan phase times out. -/
def envPlanTimeout : CoordEnv :=
  ⟨.timeout, .timeout, fun _ => .timeout, fun _ => .timeout, fun _ => .timeout⟩

/-- C2 — witness: with the plan phase timing out, the run returns an error
response. -/
theorem c2_error_iff_plan_failed_witness :
    (coordinatorProcess envPlanTimeout inpW).success = false :=
  (c2_error_iff_plan_failed envPlanTimeout inpW rfl).1.mpr
    (by
      rintro ⟨pd, hpd⟩
      rw [show envPlanTimeout.plan = PhaseResult.timeout from rfl] at hpd
      exact PhaseResult.noConfusion hpd)

/-- A run where plan and content succeed and all three validator phases fail
(timeout, exception, error response respectively). -/
def envValidatorsDown : CoordEnv :=
  { plan := .ok planDataW, content := .ok contentDataW
  , udl := fun _ => .timeout
  , design := fun _ => .raised "design agent crashed"
  , access := fun _ => .failure "accessibility validation failed" }

/-- C3 — counterexample. The claim says a failed validator is replaced by the
all-0.5 neutral report. In a run where the UDL phase times out, the
substituted report is `_create_fallback_udl_compliance`, whose representation
sub-score is 0.6 and whose overall score is 0.53 — not 0.5. -/
theorem c3_counterexample :
    (coordinatorProcess envValidatorsDown inpW).data.map (·.udl_compliance)
        = some createFallbackUdlCompliance.report
      ∧ createFallbackUdlCompliance.report.representation_score = 6/10
      ∧ ¬ (createFallbackUdlCompliance.report.representation_score = 5/10)
      ∧ createFallbackUdlCompliance.report.overall_compliance = 53/100
      ∧ ¬ (createFallbackUdlCompliance.report.overall_compliance = 5/10) := by
  refine ⟨rfl, rfl, ?_, rfl, ?_⟩
  · show ¬ ((6 : ℚ)/10 = 5/10)
    norm_num
  · show ¬ ((53 : ℚ)/100 = 5/10)
    norm_num

/-- C3 — amended. Whenever a validator phase fails or times out, the
substituted payload is that stage's deterministic coordinator fallback; the
design and accessibility fallback reports score exactly 0.5 everywhere, while
the UDL fallback scores representation 0.6, action/expression 0.5,
engagement 0.5, overall 0.53. -/
theorem c3_fallback_reports_amended (env : CoordEnv) (inp : CoordInput) (pd : PlanData)
    (hreq : inp.lessonRequest.isSome = true) (hplan : env.plan = .ok pd) :
    ((∀ s d, env.udl s ≠ .ok d) →
        (coordinatorProcess env inp).data.map (·.udl_compliance)
          = some createFallbackUdlCompliance.report)
      ∧ ((∀ s d, env.design s ≠ .ok d) →
          (coordinatorProcess env inp).data.map (·.design_compliance)
            = some createFallbackDesignCompliance.report)
      ∧ ((∀ s d, env.access s ≠ .ok d) →
          (coordinatorProcess env inp).data.map (·.accessibility_compliance)
            = some createFallbackAccessibilityCompliance.report)
      ∧ createFallbackDesignCompliance.report = ⟨5/10, 5/10, 5/10, 5/10, 5/10⟩
      ∧ createFallbackAccessibilityCompliance.report = ⟨5/10, 5/10, 5/10, 5/10, 5/10⟩
      ∧ createFallbackUdlCompliance.report = ⟨6/10, 5/10, 5/10, 53/100⟩ := by
  obtain ⟨lr, hlr⟩ := Option.isSome_iff_exists.mp hreq
  rw [coordinatorProcess_ok env inp lr pd hlr hplan]
  refine ⟨?_, ?_, ?_, rfl, rfl, rfl⟩
  · intro hfail
    show some (pipelineUdlData env pd).report = some createFallbackUdlCompliance.report
    unfold pipelineUdlData
    cases hres : env.udl (pipelineSlides0 env pd) with
    | ok d => exact absurd hres (hfail _ _)
    | timeout => rfl
    | raised m => rfl
    | failure m => rfl
  · intro hfail
    show some (pipelineDesignData env pd).report = some createFallbackDesignCompliance.report
    unfold pipelineDesignData
    cases hres : env.design (pipelineSlides1 env pd) with
    | ok d => exact absurd hres (hfail _ _)
    | timeout => rfl
    | raised m => rfl
    | failure m => rfl
  · intro hfail
    show some (pipelineAccessData env pd).report
        = some createFallbackAccessibilityCompliance.report
    unfold pipelineAccessData
    cases hres : env.access (pipelineSlides2 env pd) with
    | ok d => exact absurd hres (hfail _ _)
    | timeout => rfl
    | raised m => rfl
    | failure m => rfl

/-- C3 — witness: with all three validator phases down, the amended theorem
yields the UDL fallback report. -/
theorem c3_fallback_reports_amended_witness :
    (coordinatorProcess envValidatorsDown inpW).data.map (·.udl_compliance)
      = some createFallbackUdlCompliance.report :=
  (c3_fallback_reports_amended envValidatorsDown inpW planDataW rfl rfl).1
    (fun _ _ h => PhaseResult.noConfusion h)

/-- A slide only a validator rewrite can introduce. -/
def enhSlideW : DSlide :=
  ⟨"Queues - Intro", "# Queues\n\nFIFO structure\n\nSimplified explanation: queues line up.",
    [⟨"diagram", "Diagram showing Queues - Intro", "Diagram of the queue structure"⟩],
    [], "Audio narration",
    ["engagement", "multiple_representation"], ["alt_text", "keyboard_navigation"]⟩

/-- A run whose UDL phase rewrites the slides; design and accessibility
succeed without rewriting. -/
def envEnhancing : CoordEnv :=
  { plan := .ok planDataW, content := .ok contentDataW
  , udl := fun _ => .ok ⟨⟨6/10, 6/10, 6/10, 6/10⟩, some [enhSlideW], [], []⟩
  , design := fun _ => .ok ⟨⟨8/10, 8/10, 8/10, 8/10, 8/10⟩, none, []⟩
  , access := fun _ => .ok ⟨⟨8/10, 8/10, 8/10, 8/10, 8/10⟩, none, []⟩ }

/-- C9 — counterexample. The claim says the three validators run as
concurrently scheduled tasks with no mutual ordering, each consuming the
finalized content slide list. In the run `envEnhancing` the trace shows the
fixed order UDL → design → accessibility, and the design and accessibility
phases are invoked on the UDL-enhanced list `[enhSlideW]`, not on the
finalized content list `[slideW]` — the later validators consume the earlier
one's output. -/
theorem c9_counterexample :
    (processT envEnhancing inpW).2
        = [.planCall, .contentCall, .udlCall [slideW], .designCall [enhSlideW],
            .accessCall [enhSlideW]]
      ∧ [enhSlideW] ≠ [slideW] := by
  constructor
  · rfl
  · intro h
    have h2 : enhSlideW = slideW := by injection h
    have h3 : enhSlideW.main_content = slideW.main_content := by rw [h2]
    exact absurd h3 (by decide)

/-- C9 — amended. After a successful plan phase the three validators execute
strictly sequentially in the fixed order UDL → design → accessibility: the
trace always records exactly one call to each, in that order, and each
validator is invoked on the slide list left by its predecessor (the
predecessor's `enhanced_slides` when present, the unchanged list otherwise)
— not on the finalized content list. -/
theorem c9_validators_sequential_amended (env : CoordEnv) (inp : CoordInput) (pd : PlanData)
    (hreq : inp.lessonRequest.isSome = true) (hplan : env.plan = .ok pd) :
    ∃ s0 s1 s2, (processT env inp).2
        = [.planCall, .contentCall, .udlCall s0, .designCall s1, .accessCall s2]
      ∧ s1 = nextSlides (env.udl s0) (·.enhanced) s0
      ∧ s2 = nextSlides (env.design s1) (·.enhanced) s1 := by
  obtain ⟨lr, hlr⟩ := Option.isSome_iff_exists.mp hreq
  exact ⟨pipelineSlides0 env pd, pipelineSlides1 env pd, pipelineSlides2 env pd,
    congrArg Prod.snd (processT_ok env inp lr pd hlr hplan), rfl, rfl⟩

/-- C9 — witness: the amended theorem applied to the enhancing run. -/
theorem c9_validators_sequential_amended_witness :
    ∃ s0 s1 s2, (processT envEnhancing inpW).2
        = [.planCall, .contentCall, .udlCall s0, .designCall s1, .accessCall s2]
      ∧ s1 = nextSlides (envEnhancing.udl s0) (·.enhanced) s0
      ∧ s2 = nextSlides (envEnhancing.design s1) (·.enhanced) s1 :=
  c9_validators_sequential_amended envEnhancing inpW planDataW rfl rfl

/-- C8 — counterexample. The claim says every aggregate output carries a
boolean `degraded` flag and a list naming the stages that fell back. In the
run `envValidatorsDown` all three validators fall back (the design report in
the output is the design fallback), yet the result dict's key set contains
no `degraded` key, the metadata keys contain none either, and
`metadata["phases_completed"]` still names all five phases. -/
theorem c8_counterexample :
    (coordinatorProcess envValidatorsDown inpW).success = true
      ∧ (coordinatorProcess envValidatorsDown inpW).data.map (·.design_compliance)
          = some createFallbackDesignCompliance.report
      ∧ "degraded" ∉ coordinatorResultKeys
      ∧ "degraded" ∉ coordinatorMetadataKeys
      ∧ (coordinatorProcess envValidatorsDown inpW).metadata.map (·.phases_completed)
          = some coordinatorPhasesCompleted := by
  refine ⟨rfl, rfl, ?_, ?_, rfl⟩ <;> decide

/-- C8 — amended. The aggregate output carries no degradation marker at all:
on every successful run the result dict's keys are the fixed nine of
`coordinatorResultKeys` (no `degraded` flag, no fallen-back-stage list), and
`metadata["phases_completed"]` is the constant five-phase list regardless of
how many stages fell back, so callers cannot distinguish full success from
degraded output by the response shape. -/
theorem c8_no_degraded_flag_amended (env : CoordEnv) (inp : CoordInput) (pd : PlanData)
    (hreq : inp.lessonRequest.isSome = true) (hplan : env.plan = .ok pd) :
    (coordinatorProcess env inp).success = true
      ∧ (coordinatorProcess env inp).metadata.map (·.phases_completed)
          = some coordinatorPhasesCompleted
      ∧ "degraded" ∉ coordinatorResultKeys
      ∧ "degraded" ∉ coordinatorMetadataKeys
      ∧ "degraded_stages" ∉ coordinatorResultKeys := by
  obtain ⟨lr, hlr⟩ := Option.isSome_iff_exists.mp hreq
  rw [coordinatorProcess_ok env inp lr pd hlr hplan]
  refine ⟨rfl, rfl, ?_, ?_, ?_⟩ <;> decide

/-- C8 — witness: the amended theorem applied to the all-validators-down
run. -/
theorem c8_no_degraded_flag_amended_witness :
    (coordinatorProcess envValidatorsDown inpW).success = true :=
  (c8_no_degraded_flag_amended envValidatorsDown inpW planDataW rfl rfl).1

end LessonPipeline
